import Mathlib

set_option maxRecDepth 40000

/-!
Shallow embedding of the video-analysis repository (palantir_analyzer.py and
api.py) for checking the specification claims.  Python strings are modelled as
Lean `String` (sequences of code points, `String.data : List Char`); Python
dicts are modelled as insertion-ordered association lists; exceptions are
modelled with `Except`.
-/

namespace VideoAnalysis

/-! ### Python string primitives (operating on code points) -/

/-- Python whitespace test used by `str.strip()`. -/
def isPySpace (c : Char) : Bool := c.isWhitespace

/-- `dropWhile isPySpace`: the left part of `str.strip()`. -/
def stripL (l : List Char) : List Char := l.dropWhile isPySpace

/-- Right part of `str.strip()`. -/
def stripR (l : List Char) : List Char := (l.reverse.dropWhile isPySpace).reverse

/-- `str.strip()` on code-point lists. -/
def stripList (l : List Char) : List Char := stripR (stripL l)

/-- `s.strip()`. -/
def pyStrip (s : String) : String := String.mk (stripList s.data)

/-- `s.startswith(pre)`. -/
def pyStartsWith (s pre : String) : Bool := pre.data.isPrefixOf s.data

/-- `needle in haystack` on code-point lists (Python substring containment). -/
def listContainsSub (needle : List Char) : List Char → Bool
  | [] => needle.isEmpty
  | c :: rest => needle.isPrefixOf (c :: rest) || listContainsSub needle rest

/-- `sub in s` for Python strings. -/
def pyContains (s sub : String) : Bool := listContainsSub sub.data s.data

/-- `s.lower()` (ASCII case folding; CJK characters are unaffected, as in the data). -/
def pyLower (s : String) : String := String.mk (s.data.map Char.toLower)

/-- `s[:n]` (slice of the first `n` code points). -/
def pySlice (s : String) (n : Nat) : String := String.mk (s.data.take n)

/-- Auxiliary for `str.split(c)` (full split on a one-character separator). -/
def splitCharAux (c : Char) : List Char → List Char → List (List Char)
  | [], acc => [acc.reverse]
  | x :: xs, acc =>
      if x = c then acc.reverse :: splitCharAux c xs []
      else splitCharAux c xs (x :: acc)

/-- `s.split(c)` for a one-character separator (always a non-empty list). -/
def pySplitChar (s : String) (c : Char) : List String :=
  (splitCharAux c s.data []).map String.mk

/-- Break a list at the first occurrence of `c` (auxiliary for `split(c, 1)`). -/
def breakAtChar (c : Char) : List Char → List Char × Option (List Char)
  | [] => ([], none)
  | x :: xs =>
      if x = c then ([], some xs)
      else
        let r := breakAtChar c xs
        (x :: r.1, r.2)

/-- `s.split(c, 1)`: at most one split, at the first occurrence. -/
def pySplitOnce (s : String) (c : Char) : List String :=
  match breakAtChar c s.data with
  | (a, none) => [String.mk a]
  | (a, some b) => [String.mk a, String.mk b]

/-- Fuel-driven worker for `str.replace` (the fuel, initially the length of
the subject, bounds the scan so the recursion is structural and
kernel-reducible). -/
def listReplaceAux (old new : List Char) : Nat → List Char → List Char
  | _, [] => []
  | 0, l => l
  | fuel + 1, c :: rest =>
      if old.isPrefixOf (c :: rest) ∧ old ≠ [] then
        new ++ listReplaceAux old new fuel (rest.drop (old.length - 1))
      else
        c :: listReplaceAux old new fuel rest

/-- `s.replace(old, new)` on code-point lists (all non-overlapping occurrences,
left to right; Python semantics for a non-empty `old`). -/
def listReplace (old new l : List Char) : List Char :=
  listReplaceAux old new l.length l

/-- `s.replace(old, new)`. -/
def pyReplace (s old new : String) : String :=
  String.mk (listReplace old.data new.data s.data)

/-- Group a reversed digit list in threes (auxiliary for the `:,` format). -/
def chunk3 : List Char → List (List Char)
  | [] => []
  | [a] => [[a]]
  | [a, b] => [[a, b]]
  | a :: b :: c :: rest => [a, b, c] :: chunk3 rest

/-- Python `f"{n:,}"`: decimal digits with a comma every three, from the right. -/
def pyCommaFmt (n : Nat) : String :=
  String.mk ((List.intercalate [','] (chunk3 (Nat.repr n).data.reverse)).reverse)

/-- Character class of the identifier regex `[a-zA-Z0-9_-]`. -/
def isIdChar (c : Char) : Bool :=
  c.isAlpha || c.isDigit || c = '_' || c = '-'

/-- Fuel-driven worker for the identifier scan (the fuel, initially the length
of the subject, bounds the scan so the recursion is structural and
kernel-reducible). -/
def scanIdsAux : Nat → List Char → List String
  | _, [] => []
  | 0, _ => []
  | fuel + 1, c :: rest =>
      if ((c :: rest).take 11).length = 11 ∧ ((c :: rest).take 11).all isIdChar then
        String.mk ((c :: rest).take 11) :: scanIdsAux fuel ((c :: rest).drop 11)
      else
        scanIdsAux fuel rest

/-- `re.findall(r"[a-zA-Z0-9_-]{11}", s)` on code points: scan left to right,
match eleven identifier characters at the earliest possible position, consume
them, continue after the match. -/
def scanIds (l : List Char) : List String := scanIdsAux l.length l

/-- `re.findall(r"[a-zA-Z0-9_-]{11}", s)`. -/
def findIds (s : String) : List String := scanIds s.data

/-- `re.search(r"[?&]v=([a-zA-Z0-9_-]{11})", s)` returning group 1: the first
position where `?` or `&` is followed by `v=` and eleven identifier characters. -/
def searchVidAux : List Char → Option String
  | [] => none
  | c :: rest =>
      if c = '?' ∨ c = '&' then
        match rest with
        | 'v' :: '=' :: tail =>
            if (tail.take 11).length = 11 ∧ (tail.take 11).all isIdChar then
              some (String.mk (tail.take 11))
            else searchVidAux rest
        | _ => searchVidAux rest
      else searchVidAux rest

/-- `get_video_id(url)` from api.py (also the regex used by the index
generators in palantir_analyzer.py). -/
def getVideoId (url : String) : Option String := searchVidAux url.data

/-! ### Insertion-ordered dictionaries (Python `dict`) -/

/-- `d.get(k)` / `d[k]`. -/
def dictFind? {α : Type} (d : List (String × α)) (k : String) : Option α :=
  (d.find? (fun p => p.1 = k)).map (·.2)

/-- `k in d`. -/
def dictMem {α : Type} (d : List (String × α)) (k : String) : Bool :=
  (dictFind? d k).isSome

/-- `d[k] = v`: overwrite in place if present, else append (Python insertion
order). -/
def dictInsert {α : Type} (d : List (String × α)) (k : String) (v : α) :
    List (String × α) :=
  if (d.find? (fun p => p.1 = k)).isSome then
    d.map (fun p => if p.1 = k then (k, v) else p)
  else
    d ++ [(k, v)]

/-! ### Acquisition engine: `PalantirVideoAnalyzer.get_transcript`

Each extraction strategy (`_try_youtube_transcript_api`, `_try_yt_dlp_subtitles`,
`_try_bibigpt_api`, `_try_whisper_transcription`) wraps its fallible work in
`try/except` and returns either a successful `TranscriptResult` or `None`; an
environment assigns each strategy an underlying behaviour, `Except` errors
standing for the exceptions (timeout, network error, missing credential paths
all end in `return None` inside the strategy). -/

inductive Strategy where
  | youtubeApi
  | ytDlp
  | bibigptApi
  | whisper
deriving DecidableEq, Repr

/-- Environment: the underlying outcome of invoking one strategy once.
`.error` models an exception raised inside the strategy body; `.ok none`
models "ran, found nothing" (or a missing credential); `.ok (some t)` models
success with transcript text `t`. -/
def StratEnv : Type := Strategy → Except String (Option String)

/-- The `try/except` wrapper inside each `_try_*` method: every exception is
absorbed into `None`. -/
def runStrat (env : StratEnv) (s : Strategy) : Option String :=
  match env s with
  | .error _ => none
  | .ok v => v

/-- `get_transcript(video_id)`: the fallback pipeline, returning the result and
the exact sequence of strategy invocations.  `canAccess` is the cached
`_can_access_youtube()` probe result.  Note the source's reachable branch falls
through to the final Whisper fallback (line 385) even though it already tried
Whisper at line 365, so Whisper is invoked twice when everything fails. -/
def getTranscript (env : StratEnv) (canAccess : Bool) :
    Option String × List Strategy :=
  if canAccess then
    match runStrat env .youtubeApi with
    | some t => (some t, [.youtubeApi])
    | none =>
      match runStrat env .ytDlp with
      | some t => (some t, [.youtubeApi, .ytDlp])
      | none =>
        match runStrat env .whisper with
        | some t => (some t, [.youtubeApi, .ytDlp, .whisper])
        | none =>
          match runStrat env .whisper with
          | some t => (some t, [.youtubeApi, .ytDlp, .whisper, .whisper])
          | none => (none, [.youtubeApi, .ytDlp, .whisper, .whisper])
  else
    match runStrat env .bibigptApi with
    | some t => (some t, [.bibigptApi])
    | none =>
      match runStrat env .whisper with
      | some t => (some t, [.bibigptApi, .whisper])
      | none => (none, [.bibigptApi, .whisper])

/-- The engine written monadically in the exception monad: each strategy call
is the raw (possibly-throwing) environment action guarded by the strategy's
`try/except` (`tryStrat`).  Used to state that no exception escapes. -/
def tryStrat (env : StratEnv) (s : Strategy) : Except String (Option String) :=
  match env s with
  | .error _ => .ok none
  | .ok v => .ok v

/-- Monadic form of `get_transcript`. -/
def getTranscriptE (env : StratEnv) (canAccess : Bool) :
    Except String (Option String) := do
  if canAccess then
    match ← tryStrat env .youtubeApi with
    | some t => return (some t)
    | none =>
      match ← tryStrat env .ytDlp with
      | some t => return (some t)
      | none =>
        match ← tryStrat env .whisper with
        | some t => return (some t)
        | none =>
          match ← tryStrat env .whisper with
          | some t => return (some t)
          | none => return none
  else
    match ← tryStrat env .bibigptApi with
    | some t => return (some t)
    | none =>
      match ← tryStrat env .whisper with
      | some t => return (some t)
      | none => return none

/-- The strategy order the specification prescribes for each probe result. -/
def strategyOrder (canAccess : Bool) : List Strategy :=
  if canAccess then [.youtubeApi, .ytDlp, .whisper]
  else [.bibigptApi, .whisper]

/-- First successful strategy result along a list (the specification's
"first success wins"). -/
def firstSuccess (env : StratEnv) : List Strategy → Option String
  | [] => none
  | s :: rest =>
      match runStrat env s with
      | some t => some t
      | none => firstSuccess env rest

/-- The exact invocation trace of `get_transcript` as the code produces it:
first success stops the pipeline, and in the reachable branch a failing
Whisper attempt is followed by one more Whisper attempt (the final fallback at
the end of the method). -/
def specStrategyTrace (env : StratEnv) (canAccess : Bool) : List Strategy :=
  if canAccess then
    if (runStrat env .youtubeApi).isSome then [.youtubeApi]
    else if (runStrat env .ytDlp).isSome then [.youtubeApi, .ytDlp]
    else if (runStrat env .whisper).isSome then [.youtubeApi, .ytDlp, .whisper]
    else [.youtubeApi, .ytDlp, .whisper, .whisper]
  else
    if (runStrat env .bibigptApi).isSome then [.bibigptApi]
    else [.bibigptApi, .whisper]

theorem tryStrat_eq_ok (env : StratEnv) (s : Strategy) :
    tryStrat env s = Except.ok (runStrat env s) := by
  unfold tryStrat runStrat
  cases env s <;> rfl

/-- C2 (counterexample): with the probe reporting reachable and every strategy
failing, the engine invokes Whisper twice — the trace is
`[youtubeApi, ytDlp, whisper, whisper]`, not the claimed
`[youtubeApi, ytDlp, whisper]`, and the Whisper strategy is attempted more
than once. -/
theorem getTranscript_c2_counterexample :
    (getTranscript (fun _ => Except.ok none) true).2 =
      [Strategy.youtubeApi, Strategy.ytDlp, Strategy.whisper, Strategy.whisper] ∧
    (getTranscript (fun _ => Except.ok none) true).2 ≠
      [Strategy.youtubeApi, Strategy.ytDlp, Strategy.whisper] ∧
    ((getTranscript (fun _ => Except.ok none) true).2.count Strategy.whisper) = 2 := by
  refine ⟨rfl, ?_, rfl⟩
  decide

/-- C2 (amended): for every acquisition, when the cached probe result is true
the engine invokes Caption API, then yt-dlp, then Speech-to-Text, stopping at
the first success, except that when all three fail it attempts Speech-to-Text
once more before giving up; when the probe result is false it invokes exactly
BibiGPT then Speech-to-Text, stopping at the first success.  No strategy
outside the selected branch is ever attempted, and in the unreachable branch
no strategy is attempted more than once. -/
theorem getTranscript_c2_trace (env : StratEnv) (canAccess : Bool) :
    (getTranscript env canAccess).2 = specStrategyTrace env canAccess ∧
    (∀ s ∈ (getTranscript env canAccess).2, s ∈ strategyOrder canAccess) ∧
    ((getTranscript env false).2).Nodup := by
  refine ⟨?_, ?_, ?_⟩
  · cases canAccess <;>
      simp only [getTranscript, specStrategyTrace, Bool.false_eq_true, if_false, if_true] <;>
      rcases h1 : runStrat env .bibigptApi with _ | t1 <;>
      rcases h2 : runStrat env .whisper with _ | t2 <;>
      rcases h3 : runStrat env .youtubeApi with _ | t3 <;>
      rcases h4 : runStrat env .ytDlp with _ | t4 <;>
      simp
  · cases canAccess <;>
      simp only [getTranscript, strategyOrder, Bool.false_eq_true, if_false, if_true] <;>
      rcases h1 : runStrat env .bibigptApi with _ | t1 <;>
      rcases h2 : runStrat env .whisper with _ | t2 <;>
      rcases h3 : runStrat env .youtubeApi with _ | t3 <;>
      rcases h4 : runStrat env .ytDlp with _ | t4 <;>
      simp
  · simp only [getTranscript]
    rcases h1 : runStrat env .bibigptApi with _ | t1 <;>
      rcases h2 : runStrat env .whisper with _ | t2 <;>
      simp

/-- C5: acquisition either returns the text of the first successful strategy
in the selected order or `None` once every strategy in the selected order has
failed; and in the exception-monad form of the engine no exception ever
escapes (every strategy-level failure is absorbed by the per-strategy
`try/except`). -/
theorem getTranscript_c5_contract (env : StratEnv) (canAccess : Bool) :
    getTranscriptE env canAccess = Except.ok (getTranscript env canAccess).1 ∧
    (getTranscript env canAccess).1 = firstSuccess env (strategyOrder canAccess) ∧
    ((getTranscript env canAccess).1 = none ↔
      ∀ s ∈ strategyOrder canAccess, runStrat env s = none) := by
  refine ⟨?_, ?_, ?_⟩ <;>
    cases canAccess <;>
    simp only [getTranscriptE, getTranscript, strategyOrder, firstSuccess,
      tryStrat_eq_ok, Bool.false_eq_true, if_false, if_true] <;>
    rcases h1 : runStrat env .bibigptApi with _ | t1 <;>
    rcases h2 : runStrat env .whisper with _ | t2 <;>
    rcases h3 : runStrat env .youtubeApi with _ | t3 <;>
    rcases h4 : runStrat env .ytDlp with _ | t4 <;>
    simp [firstSuccess, h1, h2, h3, h4, bind, Except.bind, pure, Except.pure]

/-! ### Quota gate: `convert_temp_videos` (api.py)

The in-memory usage store `_guest_usage` maps `identity:day` keys to
`{"count": n, "minutes": m}` pairs.  `isAuth` selects the identity class,
`key` is the caller's usage key for the day, and `scriptExists` models the
`palantir_analyzer.py` existence check.  HTTP exceptions are `Except.error`. -/

def GUEST_DAILY_LIMIT_COUNT : Nat := 5

def GUEST_DAILY_LIMIT_MINUTES : Nat := 80

def VIDEO_DURATION_ESTIMATE : Nat := 15

def AUTH_DAILY_LIMIT_COUNT : Nat := 20

def AUTH_DAILY_LIMIT_MINUTES : Nat := 300

inductive ApiError where
  | http (status : Nat) (detail : String)
  | attrError (msg : String)
deriving DecidableEq, Repr

/-- `urls = [u.strip() for u in (body.urls or []) if u.strip()][:5]`. -/
def processedUrls (urls : List String) : List String :=
  (((urls.map pyStrip)).filter (fun u => u ≠ "")).take 5

/-- Detail string of the first (already-exhausted) quota rejection. -/
def quotaExhaustedDetail (isAuth : Bool) (usedCount usedMinutes : Nat) : String :=
  if isAuth then
    "登录用户每日限 " ++ Nat.repr AUTH_DAILY_LIMIT_COUNT ++ " 个视频或 " ++
      Nat.repr AUTH_DAILY_LIMIT_MINUTES ++ " 分钟，今日已用 " ++
      Nat.repr usedCount ++ " 次、" ++ Nat.repr usedMinutes ++ " 分钟"
  else
    "游客每日限 " ++ Nat.repr GUEST_DAILY_LIMIT_COUNT ++ " 个视频或 " ++
      Nat.repr GUEST_DAILY_LIMIT_MINUTES ++ " 分钟，今日已用 " ++
      Nat.repr usedCount ++ " 次、" ++ Nat.repr usedMinutes ++
      " 分钟，请登录后获得更高配额"

/-- Detail string of the bulk (would-exceed) quota rejection. -/
def bulkOverDetail (isAuth : Bool) (n usedCount usedMinutes : Nat) : String :=
  if isAuth then
    "本次请求 " ++ Nat.repr n ++ " 个视频会超限（次数：" ++ Nat.repr usedCount ++
      "/" ++ Nat.repr AUTH_DAILY_LIMIT_COUNT ++ "，时长：" ++ Nat.repr usedMinutes ++
      "/" ++ Nat.repr AUTH_DAILY_LIMIT_MINUTES ++ "分钟）"
  else
    "本次请求 " ++ Nat.repr n ++ " 个视频会超限（次数：" ++ Nat.repr usedCount ++
      "/" ++ Nat.repr GUEST_DAILY_LIMIT_COUNT ++ "，时长：" ++ Nat.repr usedMinutes ++
      "/" ++ Nat.repr GUEST_DAILY_LIMIT_MINUTES ++ "分钟），请登录后获得更高配额"

/-- `convert_temp_videos` (api.py lines 952-1025): parse and validate the
urls, run the two quota checks (`_check_quota_limit` with strict `<`, then the
bulk would-exceed check with `>`), check that the analyzer script exists, then
charge the usage (`_inc_usage`) and acknowledge.  Returns the updated usage
store and the admitted video ids; any `raise HTTPException` is `Except.error`
and leaves the store untouched. -/
def convertTempVideos (urls : List String) (isAuth : Bool) (key : String)
    (usage : List (String × Nat × Nat)) (scriptExists : Bool) :
    Except ApiError (List (String × Nat × Nat) × List String) :=
  let urls := processedUrls urls
  if urls = [] then
    .error (.http 400 "请提供 1-5 个 YouTube 视频链接")
  else
    let vidsOpt := urls.map getVideoId
    if vidsOpt.any (fun v => v.isNone) then
      .error (.http 400 "包含无效的视频链接")
    else
      let vids := vidsOpt.reduceOption
      let u := (dictFind? usage key).getD (0, 0)
      let limitCount := if isAuth then AUTH_DAILY_LIMIT_COUNT else GUEST_DAILY_LIMIT_COUNT
      let limitMinutes := if isAuth then AUTH_DAILY_LIMIT_MINUTES else GUEST_DAILY_LIMIT_MINUTES
      if ¬ (u.1 < limitCount ∧ u.2 < limitMinutes) then
        .error (.http 429 (quotaExhaustedDetail isAuth u.1 u.2))
      else
        let newCount := u.1 + vids.length
        let newMinutes := u.2 + vids.length * VIDEO_DURATION_ESTIMATE
        if newCount > limitCount ∨ newMinutes > limitMinutes then
          .error (.http 429 (bulkOverDetail isAuth vids.length u.1 u.2))
        else if ¬ scriptExists then
          .error (.http 500 "palantir_analyzer.py 未找到")
        else
          .ok (dictInsert usage key (newCount, newMinutes), vids)

theorem length_reduceOption_map_of_isSome {α β : Type} (f : α → Option β)
    (l : List α) (h : ∀ u ∈ l, (f u).isSome) :
    ((l.map f).reduceOption).length = l.length := by
  induction l with
  | nil => simp
  | cons a t ih =>
      have ha := h a (by simp)
      rcases hfa : f a with _ | b
      · rw [hfa] at ha; simp at ha
      · simp only [List.map_cons, hfa, List.reduceOption_cons_of_some,
          List.length_cons]
        rw [ih (fun u hu => h u (by simp [hu]))]

/-- C3: a bulk request whose admitted url list would push either the count or
the estimated-minutes counter past the identity class's daily limit is
rejected with a 429 quota error; since the rejection is an `Except.error`, no
charge is applied and the usage store is left unchanged. -/
theorem convert_videos_c3_bulk_reject (urls : List String) (isAuth : Bool)
    (key : String) (usage : List (String × Nat × Nat)) (scriptExists : Bool)
    (hne : processedUrls urls ≠ [])
    (hvalid : ∀ u ∈ processedUrls urls, (getVideoId u).isSome)
    (hover :
      ((dictFind? usage key).getD (0, 0)).1 + (processedUrls urls).length >
          (if isAuth then AUTH_DAILY_LIMIT_COUNT else GUEST_DAILY_LIMIT_COUNT) ∨
      ((dictFind? usage key).getD (0, 0)).2 +
          (processedUrls urls).length * VIDEO_DURATION_ESTIMATE >
          (if isAuth then AUTH_DAILY_LIMIT_MINUTES else GUEST_DAILY_LIMIT_MINUTES)) :
    ∃ detail, convertTempVideos urls isAuth key usage scriptExists =
      .error (ApiError.http 429 detail) := by
  have hanyv : ((processedUrls urls).map getVideoId).any (fun v => v.isNone) = false := by
    simp only [List.any_eq_false]
    intro v hv
    simp only [List.mem_map] at hv
    obtain ⟨u, hu, rfl⟩ := hv
    have := hvalid u hu
    simp [Option.isNone, Option.isSome] at this ⊢
    rcases h : getVideoId u with _ | w
    · rw [h] at this; simp at this
    · simp
  have hlen : (((processedUrls urls).map getVideoId).reduceOption).length =
      (processedUrls urls).length :=
    length_reduceOption_map_of_isSome _ _ hvalid
  unfold convertTempVideos
  rw [if_neg hne]
  simp only [hanyv, Bool.false_eq_true, if_false, hlen]
  by_cases hfirst :
      ((dictFind? usage key).getD (0, 0)).1 <
          (if isAuth then AUTH_DAILY_LIMIT_COUNT else GUEST_DAILY_LIMIT_COUNT) ∧
      ((dictFind? usage key).getD (0, 0)).2 <
          (if isAuth then AUTH_DAILY_LIMIT_MINUTES else GUEST_DAILY_LIMIT_MINUTES)
  · rw [if_neg (by simpa using hfirst)]
    rw [if_pos (by simpa using hover)]
    exact ⟨_, rfl⟩
  · rw [if_pos (by simpa using hfirst)]
    exact ⟨_, rfl⟩

/-- C3 (witness): the specification's example — a guest (limits 5 count / 80
minutes) at usage (3, 60) requesting 3 videos is rejected 429. -/
theorem convert_videos_c3_witness :
    ∃ detail,
      convertTempVideos
        ["https://www.youtube.com/watch?v=abcdefgh001",
         "https://www.youtube.com/watch?v=abcdefgh002",
         "https://www.youtube.com/watch?v=abcdefgh003"]
        false "anon-1" [("anon-1", (3, 60))] true =
      .error (ApiError.http 429 detail) :=
  convert_videos_c3_bulk_reject _ _ _ _ _ (by decide) (by decide) (by decide)

/-! ### Persistence layer: artifacts on disk

A file system is a list of files with name, content and a write timestamp
(`mtime`, used only to state the claims about "most recently written"). -/

structure FileEntry where
  name : String
  content : String
  mtime : Nat
deriving DecidableEq, Repr

/-- Read a file's content by name. -/
def fsRead (fs : List FileEntry) (name : String) : Option String :=
  (fs.find? (fun f => f.name = name)).map (·.content)

/-- Write (create or overwrite) a file. -/
def fsWrite (fs : List FileEntry) (name content : String) (now : Nat) :
    List FileEntry :=
  if (fs.find? (fun f => f.name = name)).isSome then
    fs.map (fun f => if f.name = name then ⟨name, content, now⟩ else f)
  else
    fs ++ [⟨name, content, now⟩]

/-- `s.endswith(suffix)` (used to model the `*.txt` glob). -/
def pyEndsWith (s suf : String) : Bool := suf.data.isSuffixOf s.data

/-- Lexicographic comparison of code-point lists (Python string `<`). -/
def codePointsLt : List Char → List Char → Bool
  | [], [] => false
  | [], _ :: _ => true
  | _ :: _, [] => false
  | a :: as, b :: bs =>
      if a.toNat < b.toNat then true
      else if b.toNat < a.toNat then false
      else codePointsLt as bs

/-- Python string `<` (by code point). -/
def nameLt (a b : String) : Bool := codePointsLt a.data b.data

/-- Insert a file into a name-sorted list (ascending). -/
def insertByName (f : FileEntry) : List FileEntry → List FileEntry
  | [] => [f]
  | g :: rest =>
      if nameLt f.name g.name then f :: g :: rest else g :: insertByName f rest

/-- `sorted(dir.glob(...))`: directory listing in ascending filename order. -/
def sortByName (l : List FileEntry) : List FileEntry := l.foldr insertByName []

/-! #### `save_transcript` (palantir_analyzer.py lines 926-995) -/

/-- `isLeapYear`, `daysInMonth`: calendar validity as checked by
`datetime.strptime(upload_date, '%Y%m%d')`. -/
def isLeapYear (y : Nat) : Bool := (y % 4 = 0 && y % 100 ≠ 0) || y % 400 = 0

def daysInMonth (y m : Nat) : Nat :=
  if m = 2 then (if isLeapYear y then 29 else 28)
  else if m = 4 ∨ m = 6 ∨ m = 9 ∨ m = 11 then 30 else 31

def digitVal (c : Char) : Nat := c.toNat - 48

/-- The date block of `save_transcript`: `strptime('%Y%m%d')` then
`strftime('%Y-%m-%d')`, with empty input or a parse failure giving
`"Unknown"`.  Modelled for the eight-digit `YYYYMMDD` strings the callers
supply (YouTube `upload_date`); any other shape is a parse failure. -/
def formatUploadDate (s : String) : String :=
  if s = "" then "Unknown"
  else
    match s.data with
    | [y1, y2, y3, y4, m1, m2, d1, d2] =>
        if [y1, y2, y3, y4, m1, m2, d1, d2].all Char.isDigit then
          let y := ((digitVal y1 * 10 + digitVal y2) * 10 + digitVal y3) * 10 + digitVal y4
          let m := digitVal m1 * 10 + digitVal m2
          let d := digitVal d1 * 10 + digitVal d2
          if 1 ≤ y ∧ 1 ≤ m ∧ m ≤ 12 ∧ 1 ≤ d ∧ d ≤ daysInMonth y m then
            String.mk [y1, y2, y3, y4, '-', m1, m2, '-', d1, d2]
          else "Unknown"
        else "Unknown"
    | _ => "Unknown"

/-- Characters removed by `sanitize_filename` (`re.sub(r'[<>:"/\\|?*]', '', ...)`). -/
def illegalFilenameChar (c : Char) : Bool :=
  c = '<' || c = '>' || c = ':' || c = '"' || c = '/' || c = '\\' || c = '|' || c = '?' || c = '*'

/-- `sanitize_filename`: drop illegal characters, cap at 200 code points, strip. -/
def sanitizeFilename (s : String) : String :=
  pyStrip (pySlice (String.mk (s.data.filter (fun c => !(illegalFilenameChar c)))) 200)

/-- `_get_rank_description`. -/
def rankDescription (rank : String) : String :=
  if rank = "S" then "Strategic - 战略级研究对象"
  else if rank = "A" then "Active - 高参考价值"
  else if rank = "B" then "Basic - 基础背景资料"
  else "Unknown"

/-- The 80-character `=` delimiter line. -/
def eq80 : String := String.mk (List.replicate 80 '=')

/-- Metadata supplied to `save_transcript` through `video_data`. -/
structure VideoData where
  title : String
  url : String
  uploadDate : String
  viewCount : Nat
  duration : Nat
deriving DecidableEq, Repr

/-- `filename = f"[{rank}]_{formatted_date}_{title}.txt"`. -/
def artifactFilename (vd : VideoData) (rank : String) : String :=
  "[" ++ rank ++ "]_" ++ formatUploadDate vd.uploadDate ++ "_" ++
    sanitizeFilename vd.title ++ ".txt"

/-- The metadata header block written by `save_transcript` (the `score`
argument is the printed representation of the Python float). -/
def metadataHeader (vd : VideoData) (score rank : String) (hasTranscript : Bool)
    (category source : String) : String :=
  eq80 ++ "\nMETADATA\n" ++ eq80 ++
  "\nTitle: " ++ vd.title ++
  "\nURL: " ++ vd.url ++
  "\nPublished: " ++ formatUploadDate vd.uploadDate ++
  "\nView Count: " ++ pyCommaFmt vd.viewCount ++
  "\nDuration: " ++ Nat.repr vd.duration ++ " seconds" ++
  "\nScore: " ++ score ++ "/100" ++
  "\nRank: " ++ rank ++ " (" ++ rankDescription rank ++ ")" ++
  "\nTranscript: " ++ (if hasTranscript then "Available" else "NOT AVAILABLE") ++
  "\nCategory: " ++ category ++
  "\nSource: " ++ (if source = "" then "youtube" else source) ++
  "\n\n" ++ eq80 ++ "\nTRANSCRIPT\n" ++ eq80 ++ "\n\n"

/-- The placeholder body written when no transcript is available. -/
def noTranscriptBody (url : String) : String :=
  "NO TRANSCRIPT AVAILABLE\n\n" ++
  "This video does not have captions or subtitles available on YouTube.\n" ++
  "To obtain the transcript, you would need to:\n" ++
  "1. Use a speech-to-text service (e.g., OpenAI Whisper) on the downloaded audio\n" ++
  "2. Manually transcribe the content\n" ++
  "\nVideo URL: " ++ url ++ "\n"

/-- The full artifact text committed by `save_transcript`: the metadata header
followed by the transcript body (or the fixed placeholder block when the
transcript is absent). -/
def artifactContent (vd : VideoData) (transcript : Option String)
    (rank score : String) (hasTranscript : Bool)
    (category source : String) : String :=
  metadataHeader vd score rank hasTranscript category source ++
    (match transcript with
     | some t => t
     | none => noTranscriptBody vd.url)

inductive SaveOutcome where
  | suppressed
  | written
deriving DecidableEq, Repr

/-- `save_transcript`: compute the target filename; when the new artifact has
no transcript and the target file already exists with real transcript content
(no absence marker), skip the write (the suppression is printed and the method
returns — reported, not raised); otherwise write metadata header plus
transcript body (or the fixed placeholder block). -/
def saveTranscript (fs : List FileEntry) (now : Nat) (vd : VideoData)
    (transcript : Option String) (rank score : String) (hasTranscript : Bool)
    (category source : String) : List FileEntry × SaveOutcome :=
  let filename := artifactFilename vd rank
  let suppress :=
    if hasTranscript then false
    else
      match fsRead fs filename with
      | some existing => !(pyContains existing "NO TRANSCRIPT AVAILABLE")
      | none => false
  if suppress then (fs, .suppressed)
  else
    (fsWrite fs filename
      (artifactContent vd transcript rank score hasTranscript category source)
      now, .written)

/-! #### Identifier→artifact index regeneration
(`regen_transcript_index` in api.py, `_generate_transcript_index` in
palantir_analyzer.py — the same scan). -/

/-- First line whose stripped form starts with `URL:` (the scan stops at it
with `break`). -/
def firstUrlLine : List String → Option String
  | [] => none
  | line :: rest =>
      if pyStartsWith (pyStrip line) "URL:" then some line else firstUrlLine rest

/-- Extract the video id recorded in an artifact's `URL:` metadata line. -/
def extractVidLine (content : String) : Option String :=
  match firstUrlLine (pySplitChar content '\n') with
  | none => none
  | some line => getVideoId (pyStrip ((pySplitOnce line ':').getD 1 ""))

/-- The video id an artifact file is indexed under. -/
def fileVid (f : FileEntry) : Option String := extractVidLine f.content

/-- `has_content = "NO TRANSCRIPT AVAILABLE" not in raw`. -/
def hasContentOf (f : FileEntry) : Bool :=
  !(pyContains f.content "NO TRANSCRIPT AVAILABLE")

/-- One scan step: `if vid not in index or (has_content and not index[vid][1]):
index[vid] = (name, has_content)`. -/
def regenStep (index : List (String × String × Bool)) (f : FileEntry) :
    List (String × String × Bool) :=
  match fileVid f with
  | none => index
  | some vid =>
      match dictFind? index vid with
      | none => dictInsert index vid (f.name, hasContentOf f)
      | some prev =>
          if hasContentOf f && !prev.2 then
            dictInsert index vid (f.name, hasContentOf f)
          else index

/-- Scan a file list in order, building the id → (filename, has_content) map. -/
def regenIndexOn (files : List FileEntry) : List (String × String × Bool) :=
  files.foldl regenStep []

/-- The `.txt` files of the transcripts directory in scan (ascending filename)
order. -/
def scanOrder (fs : List FileEntry) : List FileEntry :=
  sortByName (fs.filter (fun f => pyEndsWith f.name ".txt"))

/-- `regen_transcript_index` / `_generate_transcript_index`: scan the sorted
`.txt` files and emit the id → filename map (`has_content` is dropped in the
output). -/
def regenTranscriptIndex (fs : List FileEntry) : List (String × String) :=
  (regenIndexOn (scanOrder fs)).map (fun p => (p.1, p.2.1))

/-- Specification-side description of the scan result for one identifier: the
first content-bearing artifact in scan order if one exists, otherwise the
first artifact in scan order. -/
def indexSpec (L : List FileEntry) (vid : String) : Option (String × Bool) :=
  let files := L.filter (fun f => fileVid f = some vid)
  match files.find? hasContentOf with
  | some f => some (f.name, true)
  | none => files.head?.map (fun f => (f.name, false))

theorem dictFind?_insert_self {α : Type} (d : List (String × α)) (k : String)
    (v : α) : dictFind? (dictInsert d k v) k = some v := by
  unfold dictInsert
  by_cases h : (d.find? (fun p => p.1 = k)).isSome
  · rw [if_pos h]
    unfold dictFind?
    induction d with
    | nil => simp at h
    | cons a t ih =>
        by_cases ha : a.1 = k
        · simp only [List.map_cons, if_pos ha]
          rw [List.find?_cons_of_pos _ (by simp)]
          rfl
        · have ht : (t.find? (fun p => p.1 = k)).isSome := by
            rw [List.find?_cons_of_neg _ (by simpa using ha)] at h
            exact h
          simp only [List.map_cons, if_neg ha]
          rw [List.find?_cons_of_neg _ (by simpa using ha)]
          exact ih ht
  · rw [if_neg h]
    unfold dictFind?
    rw [List.find?_append]
    rw [Option.not_isSome_iff_eq_none] at h
    rw [h]
    simp

theorem dictFind?_insert_ne {α : Type} (d : List (String × α)) (k k' : String)
    (v : α) (h : k' ≠ k) : dictFind? (dictInsert d k v) k' = dictFind? d k' := by
  unfold dictInsert
  by_cases hmem : (d.find? (fun p => p.1 = k)).isSome
  · rw [if_pos hmem]
    unfold dictFind?
    clear hmem
    induction d with
    | nil => simp
    | cons a t ih =>
        simp only [List.map_cons]
        by_cases ha : a.1 = k
        · rw [if_pos ha]
          rw [List.find?_cons_of_neg _ (by simpa using Ne.symm h)]
          rw [List.find?_cons_of_neg _
            (by simp only [decide_eq_true_eq]; rw [ha]; exact Ne.symm h)]
          exact ih
        · rw [if_neg ha]
          by_cases ha' : a.1 = k'
          · rw [List.find?_cons_of_pos _ (by simpa using ha'),
              List.find?_cons_of_pos _ (by simpa using ha')]
          · rw [List.find?_cons_of_neg _ (by simpa using ha'),
              List.find?_cons_of_neg _ (by simpa using ha')]
            exact ih
  · rw [if_neg hmem]
    unfold dictFind?
    rw [List.find?_append]
    have h1 : List.find? (fun p => (p.1 = k' : Bool)) [(k, v)] = none := by
      simp [Ne.symm h]
    rw [h1]
    cases d.find? (fun p => (p.1 = k' : Bool)) <;> simp

theorem dictFind?_map_snd {α β : Type} (g : α → β) (d : List (String × α))
    (k : String) :
    dictFind? (d.map (fun p => (p.1, g p.2))) k = (dictFind? d k).map g := by
  induction d with
  | nil => rfl
  | cons a t ih =>
      by_cases ha : a.1 = k
      · unfold dictFind?
        rw [List.map_cons, List.find?_cons_of_pos _ (by simpa using ha),
          List.find?_cons_of_pos _ (by simpa using ha)]
        rfl
      · unfold dictFind?
        rw [List.map_cons, List.find?_cons_of_neg _ (by simpa using ha),
          List.find?_cons_of_neg _ (by simpa using ha)]
        exact ih

theorem regenStep_spec (acc : List (String × String × Bool)) (P : List FileEntry)
    (hacc : ∀ v, dictFind? acc v = indexSpec P v) (f : FileEntry) :
    ∀ v, dictFind? (regenStep acc f) v = indexSpec (P ++ [f]) v := by
  intro v
  rcases hf : fileVid f with _ | vid
  · have hskip : regenStep acc f = acc := by
      simp only [regenStep, hf]
    rw [hskip]
    simp only [indexSpec, List.filter_append]
    have h1 : List.filter (fun g => (fileVid g = some v : Bool)) [f] = [] := by
      simp [hf]
    rw [h1, List.append_nil]
    exact hacc v
  · by_cases hv : vid = v
    · subst hv
      have hP := hacc vid
      simp only [indexSpec] at hP
      simp only [regenStep, hf, indexSpec, List.filter_append]
      have hfa : List.filter (fun g => (fileVid g = some vid : Bool)) [f] = [f] := by
        simp [hf]
      rw [hfa, List.find?_append, List.head?_append]
      rcases hfind : (P.filter (fun g => (fileVid g = some vid : Bool))).find? hasContentOf
        with _ | g
      · rw [hfind] at hP
        rcases hhead : (P.filter (fun g => (fileVid g = some vid : Bool))).head? with _ | g0
        · rw [hhead] at hP
          simp only [Option.map_none'] at hP
          simp only [hP, hfind, Option.none_or]
          rcases hc : hasContentOf f with _ | _
          · have h2 : List.find? hasContentOf [f] = none := by simp [hc]
            rw [h2]
            simp [dictFind?_insert_self, hc, Option.or, hhead]
          · have h2 : List.find? hasContentOf [f] = some f := by simp [hc]
            rw [h2]
            simp [dictFind?_insert_self, hc, Option.or]
        · rw [hhead] at hP
          simp only [Option.map_some'] at hP
          simp only [hP, hfind, Option.none_or]
          rcases hc : hasContentOf f with _ | _
          · have h2 : List.find? hasContentOf [f] = none := by simp [hc]
            rw [h2]
            simp [hc, hP, Option.or]
          · have h2 : List.find? hasContentOf [f] = some f := by simp [hc]
            rw [h2]
            simp [hc, dictFind?_insert_self, Option.or]
      · rw [hfind] at hP
        simp only at hP
        simp only [hP, hfind]
        simp [Option.or, hP]
    · have hne : v ≠ vid := fun hh => hv hh.symm
      have hrhs : indexSpec (P ++ [f]) v = indexSpec P v := by
        simp only [indexSpec, List.filter_append]
        have h1 : List.filter (fun g => (fileVid g = some v : Bool)) [f] = [] := by
          simp [hf, hv]
        rw [h1, List.append_nil]
      rw [hrhs, ← hacc v]
      simp only [regenStep, hf]
      rcases hd : dictFind? acc vid with _ | prev
      · simp only [hd]
        exact dictFind?_insert_ne acc vid v _ hne
      · simp only [hd]
        by_cases hcc : (hasContentOf f && !prev.2) = true
        · rw [if_pos hcc]
          exact dictFind?_insert_ne acc vid v _ hne
        · rw [if_neg hcc]

theorem regenIndexOn_spec (L : List FileEntry) :
    ∀ (P : List FileEntry) (acc : List (String × String × Bool)),
      (∀ v, dictFind? acc v = indexSpec P v) →
      ∀ v, dictFind? (L.foldl regenStep acc) v = indexSpec (P ++ L) v := by
  induction L with
  | nil =>
      intro P acc hacc v
      simp only [List.foldl_nil, List.append_nil]
      exact hacc v
  | cons f t ih =>
      intro P acc hacc v
      simp only [List.foldl_cons]
      have := ih (P ++ [f]) (regenStep acc f) (regenStep_spec acc P hacc f)
      simpa [List.append_assoc] using this v

/-- C8 (amended): for every identifier, the recomputed identifier→artifact
index maps it to the first artifact file in scan order (ascending filename
order) whose content marks the transcript as present if any such file exists,
and otherwise to the first of its artifact files in scan order — write time
(`mtime`) plays no role.  Whenever some artifact of the identifier carries a
transcript, the indexed artifact is content-bearing. -/
theorem regen_index_c8_characterization (fs : List FileEntry) (vid : String) :
    dictFind? (regenTranscriptIndex fs) vid =
      (indexSpec (scanOrder fs) vid).map (fun p => p.1) ∧
    ∀ g ∈ scanOrder fs, fileVid g = some vid → hasContentOf g = true →
      ∃ h, indexSpec (scanOrder fs) vid = some (h.name, true) ∧
        hasContentOf h = true ∧ h ∈ scanOrder fs ∧ fileVid h = some vid := by
  constructor
  · unfold regenTranscriptIndex regenIndexOn
    rw [dictFind?_map_snd]
    have h := regenIndexOn_spec (scanOrder fs) [] [] (fun _ => rfl) vid
    simp only [List.nil_append] at h
    rw [h]
  · intro g hg hgv hgc
    have hmem : g ∈ (scanOrder fs).filter (fun f => (fileVid f = some vid : Bool)) := by
      simp [List.mem_filter, hg, hgv]
    have hsome : (((scanOrder fs).filter
        (fun f => (fileVid f = some vid : Bool))).find? hasContentOf).isSome := by
      rw [List.find?_isSome]
      exact ⟨g, hmem, hgc⟩
    rcases hfind : ((scanOrder fs).filter
        (fun f => (fileVid f = some vid : Bool))).find? hasContentOf with _ | h
    · rw [hfind] at hsome
      simp at hsome
    · refine ⟨h, ?_, List.find?_some hfind, ?_, ?_⟩
      · simp only [indexSpec, hfind]
      · exact (List.mem_filter.mp (List.mem_of_find?_eq_some hfind)).1
      · have := (List.mem_filter.mp (List.mem_of_find?_eq_some hfind)).2
        simpa using this

/-- Two artifacts for the same identifier, both without transcript content:
`b.txt` was written later (`mtime` 2 versus 1). -/
def c8FileA : FileEntry :=
  ⟨"a.txt",
   "Title: A\nURL: https://www.youtube.com/watch?v=abcdefghijk\n\nNO TRANSCRIPT AVAILABLE\n",
   1⟩

def c8FileB : FileEntry :=
  ⟨"b.txt",
   "Title: B\nURL: https://www.youtube.com/watch?v=abcdefghijk\n\nNO TRANSCRIPT AVAILABLE\n",
   2⟩

def c8Files : List FileEntry := [c8FileB, c8FileA]

/-- C8 (counterexample): with two transcript-absent artifacts for the same
identifier, the recomputed index points at `a.txt` (first in filename order),
not at `b.txt`, the most recently written artifact — refuting the claim's
"otherwise the most recently written" tie-break. -/
theorem regen_index_c8_counterexample :
    dictFind? (regenTranscriptIndex c8Files) "abcdefghijk" = some "a.txt" ∧
    dictFind? (regenTranscriptIndex c8Files) "abcdefghijk" ≠ some "b.txt" ∧
    c8FileB.mtime > c8FileA.mtime ∧
    fileVid c8FileA = some "abcdefghijk" ∧
    fileVid c8FileB = some "abcdefghijk" ∧
    hasContentOf c8FileA = false ∧
    hasContentOf c8FileB = false := by
  refine ⟨by decide, by decide, by decide, by decide, by decide, by decide, by decide⟩

/-! #### C1: the anti-regression rule of `save_transcript` -/

def c1Video : VideoData :=
  ⟨"Launch Event", "https://www.youtube.com/watch?v=abcdefghijk", "20240102",
   25000, 600⟩

/-- Content of the artifact written by the first (successful) commit. -/
def c1FirstContent : String :=
  metadataHeader c1Video "85.3" "S" true "" "youtube" ++ "hello transcript text"

/-- File system after the first commit (rank `S`, transcript present). -/
def c1AfterFirst : List FileEntry :=
  (saveTranscript [] 1 c1Video (some "hello transcript text") "S" "85.3" true
    "" "youtube").1

/-- Second commit for the same video identifier: transcript absent, but the
rank changed from `S` to `A`, so the computed filename differs. -/
def c1SecondCommit : List FileEntry × SaveOutcome :=
  saveTranscript c1AfterFirst 2 c1Video none "A" "70.0" false "" ""

/-- C1 (counterexample): after a committed artifact with transcript present,
a later transcript-absent commit for the same identifier is *not* suppressed
when its computed filename differs (here: the rank changed) — a new
transcript-absent artifact file is written, so the file set changes. -/
theorem save_transcript_c1_counterexample :
    c1SecondCommit.2 = SaveOutcome.written ∧
    c1SecondCommit.1 ≠ c1AfterFirst ∧
    c1SecondCommit.1.length = 2 ∧
    (∀ f ∈ c1SecondCommit.1, fileVid f = some "abcdefghijk") ∧
    (∃ f ∈ c1SecondCommit.1, hasContentOf f = false) := by
  refine ⟨by decide, by decide, by decide, by decide, by decide⟩

/-- C1 (amended): the anti-regression rule is keyed by the computed artifact
filename (rank, formatted date, sanitized title): when the target file already
exists and holds a real transcript (no absence marker), a transcript-absent
commit is suppressed — the file system is returned unchanged (hence the
derived identifier→artifact index, a function of the files, is unchanged) and
the suppression is reported to the caller as the `suppressed` outcome, not
raised as an error. -/
theorem save_transcript_c1_suppression (fs : List FileEntry) (now : Nat)
    (vd : VideoData) (transcript : Option String)
    (rank score category source existing : String)
    (h1 : fsRead fs (artifactFilename vd rank) = some existing)
    (h2 : pyContains existing "NO TRANSCRIPT AVAILABLE" = false) :
    saveTranscript fs now vd transcript rank score false category source =
      (fs, SaveOutcome.suppressed) := by
  simp [saveTranscript, h1, h2]

/-- C1 (witness): a transcript-absent re-commit computing the same filename as
the first (transcript-bearing) commit is suppressed and leaves the file
system unchanged. -/
theorem save_transcript_c1_witness :
    saveTranscript c1AfterFirst 2 c1Video none "S" "85.3" false "" "" =
      (c1AfterFirst, SaveOutcome.suppressed) :=
  save_transcript_c1_suppression c1AfterFirst 2 c1Video none "S" "85.3" "" ""
    c1FirstContent (by decide) (by decide)

/-! ### Report generation layer (api.py)

The corpus is the list of rows loaded from `master_index.csv`
(`load_master_index`), each with the computed `_video_id`; `video_meta.json`
and `config.json` are oracles; generative-model calls are oracles returning
either a response text or a raised exception (`Except.error`). -/

def PRODUCT_KEYWORDS : List String :=
  ["AIPCon", "Foundrycon", "Paragon", "Pipeline", "AIP", "Foundry", "Gotham",
   "Apollo", "Demo", "Tutorial", "Workshop", "Case Study", "Bootcamp",
   "How to", "Guide"]

/-- One row of `master_index.csv` (all CSV cells are strings except `views`,
which every use converts with `int(... or 0)`; a missing `Keywords` column is
the empty string). -/
structure Row where
  rank : String := ""
  score : String := ""
  title : String := ""
  date : String := ""
  views : Nat := 0
  transcript : String := ""
  category : String := ""
  url : String := ""
  transcriptSource : String := ""
  keywords : String := ""
deriving DecidableEq, Repr

/-- `r["_video_id"] = get_video_id(r.get("URL", ""))` (load_master_index). -/
def rowVid (r : Row) : Option String := getVideoId r.url

/-- The `keywords` value of one `video_meta.json` entry: a JSON list or any
other value (used through `str`). -/
inductive MetaKw where
  | kwList (l : List String)
  | kwStr (s : String)
deriving Repr

/-- `_text(v)` in `_apply_filters`: title plus keywords (row column, else the
`video_meta.json` entry of the row's video id), lowercased. -/
def textOf (meta : String → Option MetaKw) (r : Row) : String :=
  let kwStr :=
    match rowVid r with
    | none => ""
    | some vid =>
        match meta vid with
        | none => ""
        | some (.kwList l) => String.intercalate " " l
        | some (.kwStr s) => if s = "" then "" else s
  pyLower (r.title ++ " " ++ (if r.keywords = "" then kwStr else r.keywords))

/-- `_is_product(v)`. -/
def isProduct (meta : String → Option MetaKw) (keywords : List String)
    (r : Row) : Bool :=
  keywords.any (fun kw => pyContains (textOf meta r) (pyLower kw))

/-- Report filter predicate set (`request.filters`); absent or empty-string
entries are falsy and skip their filter, mirroring `f.get(...)` truthiness. -/
structure Filters where
  search : Option String := none
  searchInKeywords : Bool := false
  rankFilter : Option String := none
  rankFilterMulti : Option String := none
  transcriptFilter : Option String := none
  categoryFilter : Option String := none
  dateFrom : Option String := none
  dateTo : Option String := none
  viewsMin : Option Int := none
  viewsMax : Option Int := none

/-- Python truthiness for an optional string field. -/
def truthyStr : Option String → Option String
  | some s => if s = "" then none else some s
  | none => none

/-- `_apply_filters(master, filters)` (api.py lines 1214-1296): the filters in
source order.  `cfgKw` are the keys of `config.json`'s keyword table (used if
non-empty, else the static keyword list); `meta` is `video_meta.json`. -/
def applyFilters (meta : String → Option MetaKw) (cfgKw : List String)
    (master : List Row) (f : Filters) : List Row :=
  let keywords := if cfgKw ≠ [] then cfgKw else PRODUCT_KEYWORDS
  let lst := master
  let lst :=
    match truthyStr f.search with
    | some q0 =>
        let q := pyLower q0
        lst.filter (fun v => pyContains (pyLower v.title) q ||
          (f.searchInKeywords && pyContains (textOf meta v) q))
    | none => lst
  let lst :=
    match truthyStr f.rankFilter with
    | some rf => lst.filter (fun v => v.rank = rf)
    | none => lst
  let lst :=
    match truthyStr f.rankFilterMulti with
    | some rfm =>
        if rfm = "S+" then lst.filter (fun v => v.rank = "S")
        else if rfm = "A+" then lst.filter (fun v => v.rank = "S" ∨ v.rank = "A")
        else if rfm = "B+" then
          lst.filter (fun v => v.rank = "S" ∨ v.rank = "A" ∨ v.rank = "B")
        else lst
    | none => lst
  let lst :=
    match truthyStr f.transcriptFilter with
    | some tf =>
        if tf = "有" then lst.filter (fun v => v.transcript = "有")
        else if tf = "无" then lst.filter (fun v => v.transcript = "无")
        else if tf = "whisper" then
          lst.filter (fun v => v.transcript = "有" ∧
            pyLower v.transcriptSource = "whisper")
        else if tf = "youtube" then
          lst.filter (fun v => v.transcript = "有" ∧
            pyLower v.transcriptSource ≠ "whisper")
        else lst
    | none => lst
  let lst :=
    match truthyStr f.categoryFilter with
    | some cf =>
        if cf = "产品介绍" then lst.filter (fun v => isProduct meta keywords v)
        else if cf = "其他" then lst.filter (fun v => v.category = "其他")
        else if cf = "非产品介绍" then
          lst.filter (fun v => ¬ isProduct meta keywords v ∧ v.category ≠ "其他")
        else lst.filter (fun v => v.category = cf)
    | none => lst
  let lst :=
    match truthyStr f.dateFrom with
    | some d =>
        lst.filter (fun v => !(codePointsLt (pySlice v.date 7).data (pySlice d 7).data))
    | none => lst
  let lst :=
    match truthyStr f.dateTo with
    | some d =>
        lst.filter (fun v => !(codePointsLt (pySlice d 7).data (pySlice v.date 7).data))
    | none => lst
  let lst :=
    match f.viewsMin with
    | some n => if n ≠ 0 ∧ 0 < n then lst.filter (fun v => n ≤ (v.views : Int)) else lst
    | none => lst
  let lst :=
    match f.viewsMax with
    | some n => if n ≠ 0 ∧ 0 < n then lst.filter (fun v => (v.views : Int) ≤ n) else lst
    | none => lst
  lst

/-- `_load_transcripts_for_videos` (api.py): resolve each id through the
transcript index, read the transcript text (`readText fn` is the transcript
part of `read_transcript_content(fn)`), keep non-empty texts whose first 200
characters lack the `NO TRANSCRIPT` marker, truncated to 4000 characters. -/
def loadTranscriptsFor (index : List (String × String))
    (readText : String → String) (videoIds : List String) :
    List (String × String) :=
  videoIds.foldl
    (fun result vid =>
      match dictFind? index vid with
      | none => result
      | some fn =>
          let text := readText fn
          if text ≠ "" ∧ pyContains (pySlice text 200) "NO TRANSCRIPT" = false then
            dictInsert result vid (pySlice text 4000)
          else result)
    []

/-- A report job record (a `reports/<id>.json` file). -/
structure ReportRec where
  status : String := ""
  title : String := ""
  mode : String := ""
  dashboardId : String := ""
  selectedCount : Nat := 0
  withTranscriptCount : Nat := 0
  error : Option String := none
  report : Option String := none
  videoTitles : List String := []
deriving DecidableEq, Repr

/-- `_update_report`: merge updates into the record if it exists, else no-op. -/
def updateRec {α : Type} (store : List (String × α)) (rid : String)
    (f : α → α) : List (String × α) :=
  store.map (fun p => if p.1 = rid then (p.1, f p.2) else p)

/-- `ReportGenerateRequest`. -/
structure ReportReq where
  mode : String
  dashboardId : Option String := some "palantirtech"
  filters : Option Filters := none
  customPrompt : Option String := none
  nlQuery : Option String := none

/-- `generate_report` (api.py lines 1480-1523): synchronous validation, then
creation of the pending `ReportJob` record under the fresh id `newId`.
The `nl`-mode validation embeds `not (request.nl_query or
request.nl_query.strip())` literally: a `None` query evaluates
`None.strip()`, raising `AttributeError` (modelled as `ApiError.attrError`);
a non-empty query short-circuits, so even a whitespace-only query passes. -/
def generateReport (master : List Row) (meta : String → Option MetaKw)
    (cfgKw : List String) (index : List (String × String))
    (readText : String → String) (req : ReportReq) (newId : String)
    (store : List (String × ReportRec)) :
    Except ApiError (List (String × ReportRec) × String) :=
  if master = [] then .error (.http 400 "无视频数据")
  else
    let check : Except ApiError Unit :=
      if req.mode = "nl" then
        match req.nlQuery with
        | none =>
            .error (.attrError "AttributeError: NoneType object has no attribute strip")
        | some s =>
            if (if s = "" then pyStrip s else s) = "" then
              .error (.http 400 "请输入自然语言需求")
            else .ok ()
      else if req.mode = "filter" then
        let selected := applyFilters meta cfgKw master (req.filters.getD {})
        if selected = [] then .error (.http 400 "筛选后无匹配视频，请放宽条件")
        else
          let videoIds := selected.filterMap rowVid
          let transcripts := loadTranscriptsFor index readText videoIds
          if !(selected.any (fun v => (rowVid v).elim false (fun vid => dictMem transcripts vid))) then
            .error (.http 400 "所选视频均无字幕，无法生成报告")
          else .ok ()
      else .ok ()
    match check with
    | .error e => .error e
    | .ok _ =>
        let title0 :=
          if req.mode = "nl" then pySlice (pyStrip ((req.nlQuery).getD "")) 80
          else "筛选条件报告"
        let title := if title0 = "" then "智能报告" else title0
        let did :=
          match req.dashboardId with
          | none => "palantirtech"
          | some s => if s = "" then "palantirtech" else s
        .ok (dictInsert store newId
          { status := "pending", title := title, mode := req.mode,
            dashboardId := did, selectedCount := 0 }, newId)

/-- `master_by_id[vid]` for the dict comprehension
`{r["_video_id"]: r for r in master if r["_video_id"]}` (last occurrence wins;
lookups are with 11-character ids, never the empty string). -/
def masterById (master : List Row) (vid : String) : Option Row :=
  (master.reverse).find? (fun r => rowVid r = some vid)

def setStatusProcessing (store : List (String × ReportRec)) (rid : String) :
    List (String × ReportRec) :=
  updateRec store rid (fun r => { r with status := "processing" })

def setFailed (store : List (String × ReportRec)) (rid msg : String) :
    List (String × ReportRec) :=
  updateRec store rid (fun r => { r with status := "failed", error := some msg })

/-- The part of `_do_generate_report`'s body that runs after `selected_videos`
has been computed: the empty-selection check, transcript loading, batched
summarization and final synthesis (the last two as the `sumResp`/`synResp`
oracles, an `Except.error` being an exception the stage raises; prompt
construction feeds only those oracles and is not modelled further). -/
def reportContinuation (rid : String) (index : List (String × String))
    (readText : String → String) (mode : String) (nlQuery : Option String)
    (sumResp synResp : Except String String)
    (store : List (String × ReportRec)) (selected : List Row) :
    List (String × ReportRec) × Option String :=
  if selected = [] then
    (setFailed store rid
      (if mode = "nl" then "未找到与需求匹配的视频" else "筛选后无匹配视频"), none)
  else
    let videoIds := selected.filterMap rowVid
    let transcripts := loadTranscriptsFor index readText videoIds
    let withT := selected.filter
      (fun v => (rowVid v).elim false (fun vid => dictMem transcripts vid))
    if withT = [] then (setFailed store rid "所选视频均无字幕", none)
    else
      match sumResp with
      | .error e => (store, some e)
      | .ok _ =>
          match synResp with
          | .error e => (store, some e)
          | .ok reportText =>
              let titles := (withT.take 20).map (fun v => v.title)
              let title0 :=
                if mode = "nl" then pySlice (pyStrip (nlQuery.getD "")) 80
                else "筛选条件报告"
              (updateRec store rid (fun r =>
                { r with status := "completed",
                         report := some (pyStrip reportText),
                         selectedCount := selected.length,
                         withTranscriptCount := withT.length,
                         videoTitles := titles,
                         title := if title0 = "" then "智能报告" else title0 }),
               none)

/-- The body of `_do_generate_report` (api.py lines 1385-1477) up to but not
including the outer `except` clause: returns the store as mutated so far,
paired with `some e` when an exception `e` escapes the body (from one of the
three generative calls) or `none` when the body ran to normal completion
(including its internal `failed` terminations). -/
def doGenerateReportAux (rid : String) (master : List Row)
    (meta : String → Option MetaKw) (cfgKw : List String)
    (index : List (String × String)) (readText : String → String)
    (req : ReportReq) (selResp sumResp synResp : Except String String)
    (store0 : List (String × ReportRec)) :
    List (String × ReportRec) × Option String :=
  let store := setStatusProcessing store0 rid
  if master = [] then (setFailed store rid "无视频数据", none)
  else
    let mode := req.mode
    if mode = "filter" then
      reportContinuation rid index readText mode req.nlQuery sumResp synResp
        store (applyFilters meta cfgKw master (req.filters.getD {}))
    else if mode = "nl" then
      let nlq := pyStrip ((req.nlQuery).getD "")
      if nlq = "" then (setFailed store rid "请输入自然语言需求", none)
      else
        match selResp with
        | .error e => (store, some e)
        | .ok s =>
            reportContinuation rid index readText mode req.nlQuery sumResp
              synResp store ((findIds s).filterMap (masterById master))
    else
      reportContinuation rid index readText mode req.nlQuery sumResp synResp
        store []

/-- `_do_generate_report` with its outer `try/except`: an exception escaping
the body marks the job failed with the message truncated to 200 characters. -/
def doGenerateReport (rid : String) (master : List Row)
    (meta : String → Option MetaKw) (cfgKw : List String)
    (index : List (String × String)) (readText : String → String)
    (req : ReportReq) (selResp sumResp synResp : Except String String)
    (store0 : List (String × ReportRec)) : List (String × ReportRec) :=
  match doGenerateReportAux rid master meta cfgKw index readText req selResp
      sumResp synResp store0 with
  | (s, none) => s
  | (s, some e) => setFailed s rid (pySlice e 200)

theorem dictFind?_updateRec_self {α : Type} (store : List (String × α))
    (rid : String) (f : α → α) :
    dictFind? (updateRec store rid f) rid = (dictFind? store rid).map f := by
  unfold updateRec dictFind?
  induction store with
  | nil => rfl
  | cons a t ih =>
      by_cases ha : a.1 = rid
      · simp only [List.map_cons, if_pos ha]
        rw [List.find?_cons_of_pos _ (by simpa using ha),
          List.find?_cons_of_pos _ (by simpa using ha)]
        simp
      · simp only [List.map_cons, if_neg ha]
        rw [List.find?_cons_of_neg _ (by simpa using ha),
          List.find?_cons_of_neg _ (by simpa using ha)]
        exact ih

theorem updateRec_isSome (st : List (String × ReportRec)) (rid : String)
    (g : ReportRec → ReportRec) :
    (dictFind? (updateRec st rid g) rid).isSome = (dictFind? st rid).isSome := by
  rw [dictFind?_updateRec_self]
  cases dictFind? st rid <;> rfl

theorem reportContinuation_isSome (rid : String)
    (index : List (String × String)) (readText : String → String)
    (mode : String) (nlQuery : Option String)
    (sumResp synResp : Except String String)
    (st : List (String × ReportRec)) (selected : List Row) :
    (dictFind? (reportContinuation rid index readText mode nlQuery sumResp
        synResp st selected).1 rid).isSome = (dictFind? st rid).isSome := by
  simp only [reportContinuation]
  repeat' split
  all_goals simp_all [setFailed, updateRec_isSome]

theorem doGenerateReportAux_isSome (rid : String) (master : List Row)
    (meta : String → Option MetaKw) (cfgKw : List String)
    (index : List (String × String)) (readText : String → String)
    (req : ReportReq) (selResp sumResp synResp : Except String String)
    (store0 : List (String × ReportRec)) :
    (dictFind? (doGenerateReportAux rid master meta cfgKw index readText req
        selResp sumResp synResp store0).1 rid).isSome =
      (dictFind? store0 rid).isSome := by
  simp only [doGenerateReportAux]
  repeat' split
  all_goals
    simp_all [setFailed, setStatusProcessing, updateRec_isSome,
      reportContinuation_isSome]

/-- C4: once the job record exists, any exception `e` escaping the background
generation body (candidate selection, per-item summarization or final
synthesis — the three generative-call oracles) is caught by the outer
`except` of `_do_generate_report`, which records the job as failed with the
message truncated to at most 200 characters; the function itself returns the
updated store and never re-raises. -/
theorem do_generate_report_c4_failure_recorded (rid : String)
    (master : List Row) (meta : String → Option MetaKw) (cfgKw : List String)
    (index : List (String × String)) (readText : String → String)
    (req : ReportReq) (selResp sumResp synResp : Except String String)
    (store0 : List (String × ReportRec)) (r0 : ReportRec) (e : String)
    (hrec : dictFind? store0 rid = some r0)
    (hexc : (doGenerateReportAux rid master meta cfgKw index readText req
        selResp sumResp synResp store0).2 = some e) :
    ∃ r, dictFind? (doGenerateReport rid master meta cfgKw index readText req
        selResp sumResp synResp store0) rid = some r ∧
      r.status = "failed" ∧ r.error = some (pySlice e 200) ∧
      (pySlice e 200).data.length ≤ 200 := by
  have hs : (dictFind? (doGenerateReportAux rid master meta cfgKw index
      readText req selResp sumResp synResp store0).1 rid).isSome = true := by
    rw [doGenerateReportAux_isSome, hrec]
    rfl
  unfold doGenerateReport
  cases haux : doGenerateReportAux rid master meta cfgKw index readText req
      selResp sumResp synResp store0 with
  | mk s x =>
      rw [haux] at hexc hs
      simp only at hexc hs
      subst hexc
      simp only [setFailed]
      rcases hx : dictFind? s rid with _ | r1
      · rw [hx] at hs
        simp at hs
      · rw [dictFind?_updateRec_self, hx]
        refine ⟨_, rfl, rfl, rfl, ?_⟩
        simp only [pySlice, List.length_take]
        omega

def c4Row : Row :=
  { title := "Launch Event", url := "https://www.youtube.com/watch?v=abcdefghijk",
    rank := "S", transcript := "有" }

def c4Store : List (String × ReportRec) :=
  [("rep1", { status := "pending", mode := "filter" })]

/-- C4 (witness): with the final synthesis call raising `boom`, the job record
ends failed with the truncated message. -/
theorem do_generate_report_c4_witness :
    ∃ r, dictFind? (doGenerateReport "rep1" [c4Row] (fun _ => none) []
        [("abcdefghijk", "f.txt")] (fun _ => "hello transcript")
        { mode := "filter" } (Except.ok "") (Except.ok "sums")
        (Except.error "boom") c4Store) "rep1" = some r ∧
      r.status = "failed" ∧ r.error = some (pySlice "boom" 200) ∧
      (pySlice "boom" 200).data.length ≤ 200 :=
  do_generate_report_c4_failure_recorded "rep1" [c4Row] (fun _ => none) []
    [("abcdefghijk", "f.txt")] (fun _ => "hello transcript")
    { mode := "filter" } (Except.ok "") (Except.ok "sums")
    (Except.error "boom") c4Store { status := "pending", mode := "filter" } "boom"
    (by decide) (by decide)

/-- C6: a `filter`-mode submission whose predicate set selects zero corpus
rows is rejected synchronously with a 400 error; the rejection happens in the
validation step before `_save_report`, so no `ReportJob` record is created
(the error return carries no store).  Consequently a filter-mode job admitted
at submission was admitted with a non-empty selection of the same corpus. -/
theorem generate_report_c6_filter_empty (master : List Row)
    (meta : String → Option MetaKw) (cfgKw : List String)
    (index : List (String × String)) (readText : String → String)
    (req : ReportReq) (newId : String) (store : List (String × ReportRec))
    (hmode : req.mode = "filter")
    (hempty : applyFilters meta cfgKw master (req.filters.getD {}) = []) :
    ∃ detail, generateReport master meta cfgKw index readText req newId store =
      .error (ApiError.http 400 detail) := by
  by_cases hm : master = []
  · refine ⟨"无视频数据", ?_⟩
    simp [generateReport, hm]
  · refine ⟨"筛选后无匹配视频，请放宽条件", ?_⟩
    simp [generateReport, hm, hmode, hempty]

def c6Row : Row :=
  { title := "Launch Event", url := "https://www.youtube.com/watch?v=abcdefghijk",
    rank := "B", transcript := "有" }

/-- C6 (witness): a rank filter matching no row is rejected with a 400 and no
record is created. -/
theorem generate_report_c6_witness :
    ∃ detail, generateReport [c6Row] (fun _ => none) [] [] (fun _ => "")
      { mode := "filter", filters := some { rankFilter := some "S" } } "rep9" [] =
      .error (ApiError.http 400 detail) :=
  generate_report_c6_filter_empty [c6Row] (fun _ => none) [] [] (fun _ => "")
    { mode := "filter", filters := some { rankFilter := some "S" } } "rep9" []
    (by decide) (by decide)

/-- C10: the `nl`-mode validation expression
`not (request.nl_query or request.nl_query.strip())` is not total: with
`nl_query` absent (`None`) it evaluates `None.strip()` and raises
`AttributeError` instead of returning a clean 400; the error propagates out of
`generate_report` and no `ReportJob` record is created. -/
theorem generate_report_c10_nl_none_raises (master : List Row)
    (meta : String → Option MetaKw) (cfgKw : List String)
    (index : List (String × String)) (readText : String → String)
    (dashId : Option String) (filters : Option Filters)
    (customPrompt : Option String) (newId : String)
    (store : List (String × ReportRec)) (hm : master ≠ []) :
    generateReport master meta cfgKw index readText
      { mode := "nl", dashboardId := dashId, filters := filters,
        customPrompt := customPrompt, nlQuery := none } newId store =
      .error (ApiError.attrError
        "AttributeError: NoneType object has no attribute strip") := by
  simp [generateReport, hm]

/-- C10 (witness): concrete request with `mode = "nl"` and no `nl_query`. -/
theorem generate_report_c10_witness :
    generateReport [c4Row] (fun _ => none) [] [] (fun _ => "")
      { mode := "nl", nlQuery := none } "rep2" [] =
      .error (ApiError.attrError
        "AttributeError: NoneType object has no attribute strip") :=
  generate_report_c10_nl_none_raises [c4Row] (fun _ => none) [] [] (fun _ => "")
    (some "palantirtech") none none "rep2" [] (by decide)

theorem scanIdsAux_shape (fuel : Nat) :
    ∀ (l : List Char), ∀ t ∈ scanIdsAux fuel l,
      t.data.length = 11 ∧ t.data.all isIdChar = true := by
  induction fuel with
  | zero =>
      intro l t ht
      cases l <;> simp [scanIdsAux] at ht
  | succ n ih =>
      intro l t ht
      cases l with
      | nil => simp [scanIdsAux] at ht
      | cons c rest =>
          rw [scanIdsAux] at ht
          by_cases hg : ((c :: rest).take 11).length = 11 ∧
              ((c :: rest).take 11).all isIdChar
          · rw [if_pos hg] at ht
            rcases List.mem_cons.mp ht with h | h
            · subst h
              exact ⟨hg.1, hg.2⟩
            · exact ih _ t h
          · rw [if_neg hg] at ht
            exact ih _ t ht

/-- C7: in natural-language mode the generative selection response `s` is
parsed with `re.findall` into 11-character identifier-shaped substrings
(`findIds`); the selection keeps exactly the extracted identifiers present in
the corpus (`filterMap (masterById master)`), so unknown identifiers are
dropped without any exception (the body completes with no escaping error);
and when the resulting selection is empty the job is recorded failed with the
non-empty message `未找到与需求匹配的视频`. -/
theorem do_generate_report_c7_nl_selection (rid : String) (master : List Row)
    (meta : String → Option MetaKw) (cfgKw : List String)
    (index : List (String × String)) (readText : String → String)
    (req : ReportReq) (s : String) (sumResp synResp : Except String String)
    (store0 : List (String × ReportRec)) (r0 : ReportRec)
    (hmode : req.mode = "nl")
    (hnlq : pyStrip ((req.nlQuery).getD "") ≠ "")
    (hrec : dictFind? store0 rid = some r0)
    (hsel : (findIds s).filterMap (masterById master) = [])
    (hmaster : master ≠ []) :
    (∀ t ∈ findIds s, t.data.length = 11 ∧ t.data.all isIdChar = true) ∧
    (doGenerateReportAux rid master meta cfgKw index readText req
      (Except.ok s) sumResp synResp store0).2 = none ∧
    ∃ r, dictFind? (doGenerateReport rid master meta cfgKw index readText req
        (Except.ok s) sumResp synResp store0) rid = some r ∧
      r.status = "failed" ∧ r.error = some "未找到与需求匹配的视频" ∧
      ("未找到与需求匹配的视频" : String) ≠ "" := by
  have haux : doGenerateReportAux rid master meta cfgKw index readText req
      (Except.ok s) sumResp synResp store0 =
      (setFailed (setStatusProcessing store0 rid) rid "未找到与需求匹配的视频", none) := by
    simp [doGenerateReportAux, reportContinuation, hmode, hnlq, hsel, hmaster]
  refine ⟨?_, ?_, ?_⟩
  · intro t ht
    exact scanIdsAux_shape _ _ t ht
  · rw [haux]
  · unfold doGenerateReport
    rw [haux]
    simp only [setFailed, setStatusProcessing]
    rw [dictFind?_updateRec_self, dictFind?_updateRec_self, hrec]
    exact ⟨_, rfl, rfl, rfl, by decide⟩

/-- C7 (witness): a selection response containing only an identifier absent
from the corpus is dropped without error and the job fails with the non-empty
message. -/
theorem do_generate_report_c7_witness :
    (∀ t ∈ findIds "try unknownid01 ok", t.data.length = 11 ∧
      t.data.all isIdChar = true) ∧
    (doGenerateReportAux "rep1" [c4Row] (fun _ => none) [] [] (fun _ => "")
      { mode := "nl", nlQuery := some "find launch videos" }
      (Except.ok "try unknownid01 ok") (Except.ok "") (Except.ok "")
      c4Store).2 = none ∧
    ∃ r, dictFind? (doGenerateReport "rep1" [c4Row] (fun _ => none) [] []
        (fun _ => "") { mode := "nl", nlQuery := some "find launch videos" }
        (Except.ok "try unknownid01 ok") (Except.ok "") (Except.ok "")
        c4Store) "rep1" = some r ∧
      r.status = "failed" ∧ r.error = some "未找到与需求匹配的视频" ∧
      ("未找到与需求匹配的视频" : String) ≠ "" :=
  do_generate_report_c7_nl_selection "rep1" [c4Row] (fun _ => none) [] []
    (fun _ => "") { mode := "nl", nlQuery := some "find launch videos" }
    "try unknownid01 ok" (Except.ok "") (Except.ok "")
    c4Store { status := "pending", mode := "filter" }
    (by decide) (by decide) (by decide) (by decide) (by decide)

/-! ### The metadata round-trip (`save_transcript` writes,
`_generate_master_index_csv` parses).  Helper lemmas on the Python string
primitives first. -/

theorem length_dropWhile_le (p : Char → Bool) (l : List Char) :
    (l.dropWhile p).length ≤ l.length := by
  induction l with
  | nil => simp
  | cons c t ih =>
      by_cases h : p c
      · rw [List.dropWhile_cons_of_pos h]
        exact le_trans ih (by simp)
      · rw [List.dropWhile_cons_of_neg h]

theorem stripL_cons (c : Char) (l : List Char) (h : isPySpace c = false) :
    stripL (c :: l) = c :: l := by
  unfold stripL
  rw [List.dropWhile_cons_of_neg (by simp [h])]

theorem stripList_parts {v : List Char} (h : stripList v = v) :
    stripL v = v ∧ stripR v = v := by
  have h1 : (stripL v).length ≤ v.length := length_dropWhile_le _ _
  have h2 : (stripR (stripL v)).length ≤ (stripL v).length := by
    unfold stripR
    simpa using length_dropWhile_le isPySpace (stripL v).reverse
  have h3 : stripR (stripL v) = v := h
  have hlen : (stripL v).length = v.length := by
    have := congrArg List.length h3
    simp only at this
    omega
  have hL : stripL v = v := (List.dropWhile_suffix isPySpace).eq_of_length hlen
  refine ⟨hL, ?_⟩
  rw [hL] at h3
  exact h3

theorem stripR_append (a v : List Char) (hv : stripR v = v) (hne : v ≠ []) :
    stripR (a ++ v) = a ++ v := by
  have hrev : v.reverse.dropWhile isPySpace = v.reverse := by
    have := congrArg List.reverse hv
    unfold stripR at this
    simpa using this
  rcases hr : v.reverse with _ | ⟨z, w⟩
  · exact absurd (by simpa using hr) hne
  · have hz : isPySpace z = false := by
      rw [hr] at hrev
      by_contra hzz
      rw [List.dropWhile_cons_of_pos (by simpa using hzz)] at hrev
      have := congrArg List.length hrev
      have hle := length_dropWhile_le isPySpace w
      simp at this
      omega
    unfold stripR
    rw [List.reverse_append, hr, List.cons_append,
      List.dropWhile_cons_of_neg (by simp [hz]), ← List.cons_append,
      ← hr, List.reverse_append]
    simp

theorem stripList_append_right (L v : List Char) (c : Char) (t : List Char)
    (hL : L = c :: t) (hc : isPySpace c = false) (hv : stripList v = v)
    (hne : v ≠ []) : stripList (L ++ v) = L ++ v := by
  have hparts := stripList_parts hv
  unfold stripList
  rw [hL, List.cons_append, stripL_cons _ _ hc, ← List.cons_append, ← hL]
  exact stripR_append L v hparts.2 hne

theorem splitCharAux_of_not_mem (c : Char) (l acc : List Char) (h : c ∉ l) :
    splitCharAux c l acc = [acc.reverse ++ l] := by
  induction l generalizing acc with
  | nil => simp [splitCharAux]
  | cons x xs ih =>
      have hx : ¬ x = c := fun hh => h (by simp [hh])
      rw [splitCharAux, if_neg hx, ih _ (fun hh => h (by simp [hh]))]
      simp

theorem splitCharAux_append_sep (c : Char) (x rest acc : List Char)
    (h : c ∉ x) :
    splitCharAux c (x ++ c :: rest) acc =
      (acc.reverse ++ x) :: splitCharAux c rest [] := by
  induction x generalizing acc with
  | nil => simp [splitCharAux]
  | cons y ys ih =>
      have hy : ¬ y = c := fun hh => h (by simp [hh])
      rw [List.cons_append, splitCharAux, if_neg hy,
        ih _ (fun hh => h (by simp [hh]))]
      simp

theorem breakAtChar_of_not_mem (c : Char) (l : List Char) (h : c ∉ l) :
    breakAtChar c l = (l, none) := by
  induction l with
  | nil => simp [breakAtChar]
  | cons x xs ih =>
      have hx : ¬ x = c := fun hh => h (by simp [hh])
      rw [breakAtChar, if_neg hx, ih (fun hh => h (by simp [hh]))]

theorem breakAtChar_append_sep (c : Char) (x rest : List Char) (h : c ∉ x) :
    breakAtChar c (x ++ c :: rest) = (x, some rest) := by
  induction x with
  | nil => simp [breakAtChar]
  | cons y ys ih =>
      have hy : ¬ y = c := fun hh => h (by simp [hh])
      rw [List.cons_append, breakAtChar, if_neg hy, ih (fun hh => h (by simp [hh]))]

theorem listContainsSub_append_false (n0 : Char) (ntail L v : List Char)
    (hL : ∀ c ∈ L, ¬ n0 = c)
    (hv : listContainsSub (n0 :: ntail) v = false) :
    listContainsSub (n0 :: ntail) (L ++ v) = false := by
  induction L with
  | nil => simpa using hv
  | cons c t ih =>
      have hc : ¬ n0 = c := hL c (by simp)
      have hpre : (n0 :: ntail).isPrefixOf (c :: (t ++ v)) = false := by
        simp only [List.isPrefixOf]
        rw [Bool.and_eq_false_iff]
        left
        simpa using hc
      rw [List.cons_append, listContainsSub, hpre,
        ih (fun d hd => hL d (by simp [hd]))]
      rfl

/-! Decimal rendering facts (`str(n)` / `f"{n:,}"`). -/

def digitChars : List Char := ['0', '1', '2', '3', '4', '5', '6', '7', '8', '9']

theorem digitChar_mem (m : Nat) (h : m < 10) : Nat.digitChar m ∈ digitChars := by
  interval_cases m <;> decide

theorem toDigitsCore_mem (fuel : Nat) :
    ∀ (n : Nat) (ds : List Char), (∀ c ∈ ds, c ∈ digitChars) →
      ∀ c ∈ Nat.toDigitsCore 10 fuel n ds, c ∈ digitChars := by
  induction fuel with
  | zero =>
      intro n ds hds c hc
      simp only [Nat.toDigitsCore] at hc
      exact hds c hc
  | succ f ih =>
      intro n ds hds c hc
      simp only [Nat.toDigitsCore] at hc
      by_cases h0 : n / 10 = 0
      · rw [if_pos h0] at hc
        rcases List.mem_cons.mp hc with h | h
        · subst h
          exact digitChar_mem _ (Nat.mod_lt _ (by norm_num))
        · exact hds _ h
      · rw [if_neg h0] at hc
        refine ih _ _ (fun d hd => ?_) c hc
        rcases List.mem_cons.mp hd with h | h
        · subst h
          exact digitChar_mem _ (Nat.mod_lt _ (by norm_num))
        · exact hds _ h

theorem repr_data_mem (n : Nat) : ∀ c ∈ (Nat.repr n).data, c ∈ digitChars := by
  intro c hc
  have h : (Nat.repr n).data = Nat.toDigits 10 n := rfl
  rw [h, Nat.toDigits] at hc
  exact toDigitsCore_mem _ _ _ (by simp) c hc

theorem toDigitsCore_length_ge (fuel : Nat) :
    ∀ (n : Nat) (ds : List Char),
      ds.length ≤ (Nat.toDigitsCore 10 fuel n ds).length := by
  induction fuel with
  | zero =>
      intro n ds
      simp [Nat.toDigitsCore]
  | succ f ih =>
      intro n ds
      simp only [Nat.toDigitsCore]
      by_cases h0 : n / 10 = 0
      · rw [if_pos h0]
        simp
      · rw [if_neg h0]
        calc ds.length ≤ (Nat.digitChar (n % 10) :: ds).length := by simp
          _ ≤ _ := ih (n / 10) _

theorem repr_data_ne_nil (n : Nat) : (Nat.repr n).data ≠ [] := by
  have h : (Nat.repr n).data = Nat.toDigits 10 n := rfl
  rw [h, Nat.toDigits]
  simp only [Nat.toDigitsCore]
  by_cases h0 : n / 10 = 0
  · rw [if_pos h0]
    simp
  · rw [if_neg h0]
    intro hnil
    have hlen := toDigitsCore_length_ge n (n / 10) [Nat.digitChar (n % 10)]
    rw [hnil] at hlen
    simp at hlen

theorem digitChars_benign : ∀ c ∈ digitChars,
    isPySpace c = false ∧ c ≠ '\n' ∧ c ≠ ':' ∧ c ≠ ',' ∧ c ≠ '/' ∧ c ≠ 'T' := by
  decide

theorem chunk3_flatten : ∀ (l : List Char), (chunk3 l).flatten = l
  | [] => by simp [chunk3]
  | [a] => by simp [chunk3]
  | [a, b] => by simp [chunk3]
  | a :: b :: c :: rest => by
      simp [chunk3, chunk3_flatten rest]

theorem chunk3_mem {l : List Char} {x : List Char} (hx : x ∈ chunk3 l)
    {c : Char} (hc : c ∈ x) : c ∈ l := by
  have h : c ∈ (chunk3 l).flatten := List.mem_flatten.mpr ⟨x, hx, hc⟩
  rwa [chunk3_flatten] at h

theorem filter_intercalate_comma : ∀ (L : List (List Char)),
    (∀ x ∈ L, ∀ c ∈ x, ¬ c = ',') →
    (List.intercalate [','] L).filter (fun x => !(x = ',')) = L.flatten
  | [], _ => by simp [List.intercalate]
  | [x], h => by
      have hx : x.filter (fun c => !(c = ',')) = x :=
        List.filter_eq_self.mpr (fun a ha => by simpa using h x (by simp) a ha)
      simp [List.intercalate, hx]
  | x :: y :: t, h => by
      have hx : x.filter (fun c => !(c = ',')) = x :=
        List.filter_eq_self.mpr (fun a ha => by simpa using h x (by simp) a ha)
      have ih := filter_intercalate_comma (y :: t)
        (fun z hz => h z (by simp at hz ⊢; tauto))
      simp only [List.intercalate] at ih ⊢
      rw [List.intersperse_cons_cons]
      simp only [List.flatten_cons, List.filter_append, hx, ih]
      simp

theorem listReplace_single_char (c : Char) : ∀ (l : List Char),
    listReplace [c] [] l = l.filter (fun x => !(x = c))
  | [] => by simp [listReplace, listReplaceAux]
  | x :: rest => by
      unfold listReplace
      simp only [List.length_cons]
      rw [listReplaceAux]
      by_cases hx : x = c
      · have hcond : ([c].isPrefixOf (x :: rest) ∧ [c] ≠ []) :=
          ⟨by simp [List.isPrefixOf, hx], by simp⟩
        rw [if_pos hcond]
        simp only [List.length_singleton, Nat.sub_self, List.drop_zero,
          List.nil_append]
        have htail : listReplaceAux [c] [] rest.length rest =
            listReplace [c] [] rest := rfl
        rw [htail, listReplace_single_char c rest]
        simp [List.filter_cons, hx]
      · have hcond : ¬ ([c].isPrefixOf (x :: rest) ∧ [c] ≠ []) := by
          rintro ⟨h1, _⟩
          simp [List.isPrefixOf] at h1
          exact hx (by simpa using h1.symm)
        rw [if_neg hcond]
        have htail : listReplaceAux [c] [] rest.length rest =
            listReplace [c] [] rest := rfl
        rw [htail, listReplace_single_char c rest]
        simp [List.filter_cons, hx]

theorem listReplace_slash100 : ∀ (s : List Char), '/' ∉ s →
    listReplace ("/100").data [] (s ++ ("/100").data) = s
  | [], _ => by decide
  | x :: rest, h => by
      have hx : x ≠ '/' := fun hh => h (by simp [hh])
      unfold listReplace
      simp only [List.cons_append, List.length_cons]
      rw [listReplaceAux]
      have hcond : ¬ ((("/100").data).isPrefixOf (x :: (rest ++ ("/100").data)) ∧
          ("/100").data ≠ []) := by
        rintro ⟨h1, _⟩
        rw [show ("/100").data = '/' :: ("100").data from rfl] at h1
        simp only [List.isPrefixOf, Bool.and_eq_true, beq_iff_eq] at h1
        exact hx h1.1.symm
      rw [if_neg hcond]
      have htail : listReplaceAux ("/100").data [] (rest ++ ("/100").data).length
          (rest ++ ("/100").data) = listReplace ("/100").data [] (rest ++ ("/100").data) := rfl
      rw [htail, listReplace_slash100 rest (fun hh => h (by simp [hh]))]

theorem strip_commas_pyCommaFmt (n : Nat) :
    pyReplace (pyCommaFmt n) "," "" = Nat.repr n := by
  unfold pyReplace
  rw [show (",").data = [','] from rfl, show ("" : String).data = ([] : List Char) from rfl]
  rw [listReplace_single_char]
  unfold pyCommaFmt
  have hcomma : ∀ x ∈ chunk3 (Nat.repr n).data.reverse, ∀ c ∈ x, ¬ c = ',' := by
    intro x hx c hc
    have hmem : c ∈ (Nat.repr n).data.reverse := chunk3_mem hx hc
    have := (digitChars_benign c (repr_data_mem n c (by simpa using hmem))).2.2.2.1
    exact this
  show String.mk (List.filter _ ((List.intercalate [','] (chunk3 (Nat.repr n).data.reverse)).reverse)) = Nat.repr n
  rw [List.filter_reverse, filter_intercalate_comma _ hcomma, chunk3_flatten]
  simp

theorem mem_intersperse {α : Type} (sep : α) :
    ∀ (L : List α), ∀ x ∈ L.intersperse sep, x ∈ L ∨ x = sep
  | [], x, hx => by simp at hx
  | [a], x, hx => by
      left
      simpa using hx
  | a :: b :: t, x, hx => by
      rw [List.intersperse_cons_cons] at hx
      rcases List.mem_cons.mp hx with h | h
      · exact Or.inl (by simp [h])
      · rcases List.mem_cons.mp h with h2 | h2
        · exact Or.inr h2
        · rcases mem_intersperse sep (b :: t) x h2 with h3 | h3
          · exact Or.inl (by simp at h3 ⊢; tauto)
          · exact Or.inr h3

theorem pyCommaFmt_data_mem (n : Nat) :
    ∀ c ∈ (pyCommaFmt n).data, c ∈ (',' :: digitChars) := by
  intro c hc
  unfold pyCommaFmt at hc
  simp only [List.mem_reverse] at hc
  change c ∈ List.intercalate [','] (chunk3 (Nat.repr n).data.reverse) at hc
  rw [List.intercalate] at hc
  rcases List.mem_flatten.mp hc with ⟨x, hxmem, hcx⟩
  rcases mem_intersperse _ _ x hxmem with h | h
  · have : c ∈ (Nat.repr n).data.reverse := chunk3_mem h hcx
    exact List.mem_cons.mpr (Or.inr (repr_data_mem n c (by simpa using this)))
  · subst h
    simp at hcx
    simp [hcx]

/-! #### The row parser of `_generate_master_index_csv`
(palantir_analyzer.py lines 1332-1357): the first 25 lines of an artifact are
scanned with an if/elif chain; the `rank`/`score`/`views` extractions use a
full `split(":")`, the others `split(":", 1)`; `source` is lowercased. -/

/-- One parsed row.  The Python code initialises `score` and `views` with the
integer `0`; both are modelled as the string `"0"` (the CSV cell the integer
would produce if no matching line overwrote it). -/
structure ParsedRow where
  rank : String
  score : String
  title : String
  date : String
  views : String
  url : String
  transcript : String
  category : String
  source : String
deriving DecidableEq, Repr

def parseRowInit : ParsedRow :=
  { rank := "Unknown", score := "0", title := "Unknown", date := "Unknown",
    views := "0", url := "", transcript := "无", category := "",
    source := "youtube" }

/-- `line.split(":")[1]` (with `""` for a missing index, which the artifact
lines never produce). -/
def splitColonTail (line : String) : String := (pySplitChar line ':').getD 1 ""

/-- `line.split(":", 1)[1]`. -/
def splitColon1Tail (line : String) : String := (pySplitOnce line ':').getD 1 ""

/-- `s[0]` (with `""` for an empty string, which the artifact lines never
produce — Python would raise `IndexError`). -/
def firstCharStr (s : String) : String :=
  match s.data with
  | [] => ""
  | c :: _ => String.mk [c]

/-- One line of the scan (`line = line.strip()` then the if/elif chain). -/
def parseLine (st : ParsedRow) (line0 : String) : ParsedRow :=
  let line := pyStrip line0
  if pyStartsWith line "Rank:" then
    { st with rank := firstCharStr (pyStrip (splitColonTail line)) }
  else if pyStartsWith line "Score:" then
    { st with score := pyStrip (pyReplace (pyStrip (splitColonTail line)) "/100" "") }
  else if pyStartsWith line "Title:" then
    { st with title := pyStrip (splitColon1Tail line) }
  else if pyStartsWith line "Published:" then
    { st with date := pyStrip (splitColon1Tail line) }
  else if pyStartsWith line "View Count:" then
    { st with views := pyReplace (pyStrip (splitColonTail line)) "," "" }
  else if pyStartsWith line "URL:" then
    { st with url := pyStrip (splitColon1Tail line) }
  else if pyContains line "Transcript:" then
    { st with transcript := if pyContains line "Available" then "有" else "无" }
  else if pyStartsWith line "Category:" then
    { st with category := pyStrip (splitColon1Tail line) }
  else if pyStartsWith line "Source:" then
    { st with source := pyLower (pyStrip (splitColon1Tail line)) }
  else st

/-- `_generate_master_index_csv`'s per-file scan: fold the chain over the
first 25 lines (`f.readlines()[:25]`). -/
def parseMetaRows (content : String) : ParsedRow :=
  ((pySplitChar content '\n').take 25).foldl parseLine parseRowInit

def c9Video : VideoData :=
  ⟨"Launch Event", "https://www.youtube.com/watch?v=abcdefghijk", "20240102",
   1234, 600⟩

/-- An artifact committed with `source = "Whisper"` (an uppercase source). -/
def c9Artifact : String :=
  metadataHeader c9Video "85.3" "S" true "" "Whisper" ++ "hello transcript"

/-- C9 (counterexample): the index generator lowercases the `Source` field, so
an artifact written with source `Whisper` parses back with source `whisper` —
the parsed source differs from the supplied one, refuting the unrestricted
round-trip.  (The other fields of this artifact do round-trip.) -/
theorem parse_master_c9_counterexample :
    (parseMetaRows c9Artifact).source = "whisper" ∧
    (parseMetaRows c9Artifact).source ≠ "Whisper" ∧
    (parseMetaRows c9Artifact).views = "1234" ∧
    (parseMetaRows c9Artifact).rank = "S" ∧
    (parseMetaRows c9Artifact).title = "Launch Event" ∧
    (parseMetaRows c9Artifact).date = "2024-01-02" ∧
    (parseMetaRows c9Artifact).transcript = "有" := by
  refine ⟨by decide, by decide, by decide, by decide, by decide, by decide,
    by decide⟩

theorem isPrefixOf_label_ne (p l : List Char) (a b : Char) (pt lt : List Char)
    (hp : p = a :: pt) (hl : l = b :: lt) (hab : (a == b) = false) :
    p.isPrefixOf l = false := by
  subst hp
  subst hl
  simp [List.isPrefixOf, hab]

theorem isPrefixOf_label_ne2 (p l : List Char) (a b c d : Char) (pt lt : List Char)
    (hp : p = a :: b :: pt) (hl : l = c :: d :: lt) (hbd : (b == d) = false) :
    p.isPrefixOf l = false := by
  subst hp
  subst hl
  simp [List.isPrefixOf, hbd]

theorem isPrefixOf_label_self (p rest l : List Char) (h : l = p ++ rest) :
    p.isPrefixOf l = true := by
  subst h
  rw [List.isPrefixOf_iff_prefix]
  exact ⟨rest, rfl⟩

theorem stripLine_label (L v : List Char) (c : Char) (t : List Char)
    (hL : L = c :: t) (hc : isPySpace c = false) (hv : stripList v = v)
    (hne : v ≠ []) :
    pyStrip (String.mk (L ++ v)) = String.mk (L ++ v) := by
  unfold pyStrip
  rw [show (String.mk (L ++ v)).data = L ++ v from rfl,
    stripList_append_right L v c t hL hc hv hne]

theorem extract1_label (lbl v : List Char) (hlbl : ':' ∉ lbl)
    (hv : stripList v = v) :
    pyStrip (splitColon1Tail (String.mk (lbl ++ ':' :: ' ' :: v))) =
      String.mk v := by
  unfold splitColon1Tail pySplitOnce
  rw [show (String.mk (lbl ++ ':' :: ' ' :: v)).data = lbl ++ ':' :: (' ' :: v)
    from rfl]
  rw [breakAtChar_append_sep _ _ _ hlbl]
  simp only [List.getD, List.get?_eq_getElem?, List.getElem?_cons_succ,
    List.getElem?_cons_zero, Option.getD_some]
  unfold pyStrip stripList
  rw [show (String.mk (' ' :: v)).data = ' ' :: v from rfl]
  rw [show stripL (' ' :: v) = stripL v from by
    unfold stripL
    rw [List.dropWhile_cons_of_pos (by decide)]]
  rw [(stripList_parts hv).1, (stripList_parts hv).2]

theorem extractFull_label (lbl v : List Char) (hlbl : ':' ∉ lbl)
    (hv : ':' ∉ v) :
    splitColonTail (String.mk (lbl ++ ':' :: v)) = String.mk v := by
  unfold splitColonTail pySplitChar
  rw [show (String.mk (lbl ++ ':' :: v)).data = lbl ++ ':' :: v from rfl]
  rw [splitCharAux_append_sep _ _ _ _ hlbl, splitCharAux_of_not_mem _ _ _ hv]
  simp [List.getD]

theorem contains_transcript_label_false (L v : List Char)
    (hL : ∀ c ∈ L, ¬ ('T' : Char) = c)
    (hv : listContainsSub ("Transcript:").data v = false) :
    pyContains (String.mk (L ++ v)) "Transcript:" = false := by
  unfold pyContains
  rw [show (String.mk (L ++ v)).data = L ++ v from rfl]
  rw [show ("Transcript:").data = 'T' :: ("ranscript:").data from rfl] at hv ⊢
  exact listContainsSub_append_false _ _ _ _ hL hv

theorem stripList_of_nonspace (l : List Char)
    (h : ∀ c ∈ l, isPySpace c = false) : stripList l = l := by
  have hL : stripL l = l := by
    cases l with
    | nil => rfl
    | cons c t => exact stripL_cons c t (h c (by simp))
  unfold stripList
  rw [hL]
  unfold stripR
  have hrev : l.reverse.dropWhile isPySpace = l.reverse := by
    cases hr : l.reverse with
    | nil => rfl
    | cons c t =>
        have hc : c ∈ l := by
          have hmem : c ∈ l.reverse := by
            rw [hr]
            simp
          simpa using hmem
        rw [List.dropWhile_cons_of_neg (by simp [h c hc])]
  rw [hrev, List.reverse_reverse]

theorem isDigit_benign (c : Char) (h : c.isDigit = true) :
    isPySpace c = false ∧ c ≠ ':' ∧ c ≠ '\n' ∧ c ≠ 'T' := by
  refine ⟨?_, ?_, ?_, ?_⟩
  · by_contra hsp
    rw [Bool.not_eq_false] at hsp
    unfold isPySpace at hsp
    simp only [Char.isWhitespace, Bool.or_eq_true, decide_eq_true_eq] at hsp
    rcases hsp with ((h1 | h1) | h1) | h1 <;> subst h1 <;>
      exact absurd h (by decide)
  · intro h1
    subst h1
    exact absurd h (by decide)
  · intro h1
    subst h1
    exact absurd h (by decide)
  · intro h1
    subst h1
    exact absurd h (by decide)

theorem repr_data_benign (n : Nat) :
    stripList (Nat.repr n).data = (Nat.repr n).data ∧
    ':' ∉ (Nat.repr n).data ∧ '\n' ∉ (Nat.repr n).data ∧
    (∀ c ∈ (Nat.repr n).data, ¬ ('T' : Char) = c) ∧
    ',' ∉ (Nat.repr n).data ∧ '/' ∉ (Nat.repr n).data := by
  have hall : ∀ c ∈ (Nat.repr n).data,
      isPySpace c = false ∧ c ≠ '\n' ∧ c ≠ ':' ∧ c ≠ ',' ∧ c ≠ '/' ∧ c ≠ 'T' :=
    fun c hc => digitChars_benign c (repr_data_mem n c hc)
  refine ⟨stripList_of_nonspace _ (fun c hc => (hall c hc).1), fun hc => ?_,
    fun hc => ?_, fun c hc h1 => ?_, fun hc => ?_, fun hc => ?_⟩
  · exact absurd rfl (hall _ hc).2.2.1
  · exact absurd rfl (hall _ hc).2.1
  · exact absurd h1.symm (hall c hc).2.2.2.2.2
  · exact absurd rfl (hall _ hc).2.2.2.1
  · exact absurd rfl (hall _ hc).2.2.2.2.1

theorem pyCommaFmt_data_benign (n : Nat) :
    stripList (pyCommaFmt n).data = (pyCommaFmt n).data ∧
    ':' ∉ (pyCommaFmt n).data ∧ '\n' ∉ (pyCommaFmt n).data ∧
    (∀ c ∈ (pyCommaFmt n).data, ¬ ('T' : Char) = c) := by
  have hall : ∀ c ∈ (pyCommaFmt n).data,
      isPySpace c = false ∧ c ≠ '\n' ∧ c ≠ ':' ∧ c ≠ 'T' := by
    intro c hc
    have hmem := pyCommaFmt_data_mem n c hc
    have hprops : ∀ d ∈ (',' :: digitChars),
        isPySpace d = false ∧ d ≠ '\n' ∧ d ≠ ':' ∧ d ≠ 'T' := by decide
    exact hprops c hmem
  refine ⟨stripList_of_nonspace _ (fun c hc => (hall c hc).1), fun hc => ?_,
    fun hc => ?_, fun c hc h1 => ?_⟩
  · exact absurd rfl (hall _ hc).2.2.1
  · exact absurd rfl (hall _ hc).2.1
  · exact absurd h1.symm (hall c hc).2.2.2

theorem pyCommaFmt_ne_nil (n : Nat) : (pyCommaFmt n).data ≠ [] := by
  intro h
  have h3 := strip_commas_pyCommaFmt n
  unfold pyReplace at h3
  rw [show (",").data = [','] from rfl, show ("" : String).data = ([] : List Char)
    from rfl, h] at h3
  have h4 : ("" : String) = Nat.repr n := by
    simpa [listReplace, listReplaceAux] using h3
  have h5 := repr_data_ne_nil n
  rw [← h4] at h5
  exact h5 rfl

theorem formatUploadDate_benign (s : String) :
    stripList (formatUploadDate s).data = (formatUploadDate s).data ∧
    (formatUploadDate s).data ≠ [] ∧ '\n' ∉ (formatUploadDate s).data ∧
    ':' ∉ (formatUploadDate s).data := by
  have hUnknown : stripList ("Unknown").data = ("Unknown").data ∧
      ("Unknown").data ≠ [] ∧ '\n' ∉ ("Unknown").data ∧
      ':' ∉ ("Unknown").data := by decide
  unfold formatUploadDate
  split
  · exact hUnknown
  · split
    · next y1 y2 y3 y4 m1 m2 d1 d2 heq =>
        by_cases hall : [y1, y2, y3, y4, m1, m2, d1, d2].all Char.isDigit = true
        · rw [if_pos hall]
          dsimp only
          split
          · simp only [List.all_cons, List.all_nil, Bool.and_eq_true,
              Bool.and_true] at hall
            obtain ⟨hy1, hy2, hy3, hy4, hm1, hm2, hd1, hd2⟩ := hall
            have hbs : ∀ c ∈ [y1, y2, y3, y4, '-', m1, m2, '-', d1, d2],
                isPySpace c = false ∧ c ≠ '\n' ∧ c ≠ ':' := by
              intro c hc
              simp only [List.mem_cons, List.not_mem_nil, or_false] at hc
              rcases hc with h | h | h | h | h | h | h | h | h | h <;> subst h
              · exact ⟨(isDigit_benign _ hy1).1, (isDigit_benign _ hy1).2.2.1,
                  (isDigit_benign _ hy1).2.1⟩
              · exact ⟨(isDigit_benign _ hy2).1, (isDigit_benign _ hy2).2.2.1,
                  (isDigit_benign _ hy2).2.1⟩
              · exact ⟨(isDigit_benign _ hy3).1, (isDigit_benign _ hy3).2.2.1,
                  (isDigit_benign _ hy3).2.1⟩
              · exact ⟨(isDigit_benign _ hy4).1, (isDigit_benign _ hy4).2.2.1,
                  (isDigit_benign _ hy4).2.1⟩
              · exact ⟨by decide, by decide, by decide⟩
              · exact ⟨(isDigit_benign _ hm1).1, (isDigit_benign _ hm1).2.2.1,
                  (isDigit_benign _ hm1).2.1⟩
              · exact ⟨(isDigit_benign _ hm2).1, (isDigit_benign _ hm2).2.2.1,
                  (isDigit_benign _ hm2).2.1⟩
              · exact ⟨by decide, by decide, by decide⟩
              · exact ⟨(isDigit_benign _ hd1).1, (isDigit_benign _ hd1).2.2.1,
                  (isDigit_benign _ hd1).2.1⟩
              · exact ⟨(isDigit_benign _ hd2).1, (isDigit_benign _ hd2).2.2.1,
                  (isDigit_benign _ hd2).2.1⟩
            refine ⟨stripList_of_nonspace _ (fun c hc => (hbs c hc).1), by simp,
              fun hc => ?_, fun hc => ?_⟩
            · exact absurd rfl (hbs _ hc).2.1
            · exact absurd rfl (hbs _ hc).2.2
          · exact hUnknown
        · rw [if_neg hall]
          exact hUnknown
    · exact hUnknown

/-- Lines that match none of the if/elif conditions of the scan. -/
def InertLine (line0 : String) : Prop :=
  pyStartsWith (pyStrip line0) "Rank:" = false ∧
  pyStartsWith (pyStrip line0) "Score:" = false ∧
  pyStartsWith (pyStrip line0) "Title:" = false ∧
  pyStartsWith (pyStrip line0) "Published:" = false ∧
  pyStartsWith (pyStrip line0) "View Count:" = false ∧
  pyStartsWith (pyStrip line0) "URL:" = false ∧
  pyContains (pyStrip line0) "Transcript:" = false ∧
  pyStartsWith (pyStrip line0) "Category:" = false ∧
  pyStartsWith (pyStrip line0) "Source:" = false

theorem parseLine_of_inert (st : ParsedRow) (line : String)
    (h : InertLine line) : parseLine st line = st := by
  obtain ⟨h1, h2, h3, h4, h5, h6, h7, h8, h9⟩ := h
  simp only [parseLine, h1, h2, h3, h4, h5, h6, h7, h8, h9,
    Bool.false_eq_true, if_false]

theorem foldl_parseLine_inert (st : ParsedRow) :
    ∀ (L : List String), (∀ x ∈ L, InertLine x) →
      L.foldl parseLine st = st := by
  intro L
  induction L generalizing st with
  | nil => intro _; rfl
  | cons x t ih =>
      intro h
      rw [List.foldl_cons, parseLine_of_inert st x (h x (by simp))]
      exact ih st (fun y hy => h y (by simp [hy]))

theorem parseLine_title (st : ParsedRow) (v : List Char)
    (hv : stripList v = v) :
    parseLine st (String.mk (("Title: ").data ++ v)) =
      { st with title := String.mk v } := by
  by_cases hne : v = []
  · subst hne
    rfl
  · have hstrip := stripLine_label ("Title: ").data v 'T' ("itle: ").data rfl
      (by decide) hv hne
    have c1 : pyStartsWith (String.mk (("Title: ").data ++ v)) "Rank:" = false := by
      unfold pyStartsWith
      exact isPrefixOf_label_ne _ _ 'R' 'T' ("ank:").data (("itle: ").data ++ v)
        rfl rfl (by decide)
    have c2 : pyStartsWith (String.mk (("Title: ").data ++ v)) "Score:" = false := by
      unfold pyStartsWith
      exact isPrefixOf_label_ne _ _ 'S' 'T' ("core:").data (("itle: ").data ++ v)
        rfl rfl (by decide)
    have c3 : pyStartsWith (String.mk (("Title: ").data ++ v)) "Title:" = true := by
      unfold pyStartsWith
      exact isPrefixOf_label_self ("Title:").data (' ' :: v) _ rfl
    simp only [parseLine, hstrip, c1, c2, c3, Bool.false_eq_true, if_false,
      if_true]
    rw [show String.mk (("Title: ").data ++ v) =
      String.mk (("Title").data ++ ':' :: ' ' :: v) from rfl]
    rw [extract1_label _ _ (by decide) hv]

theorem parseLine_url (st : ParsedRow) (v : List Char)
    (hv : stripList v = v) :
    parseLine st (String.mk (("URL: ").data ++ v)) =
      { st with url := String.mk v } := by
  by_cases hne : v = []
  · subst hne
    rfl
  · have hstrip := stripLine_label ("URL: ").data v 'U' ("RL: ").data rfl
      (by decide) hv hne
    have c1 : pyStartsWith (String.mk (("URL: ").data ++ v)) "Rank:" = false := by
      unfold pyStartsWith
      exact isPrefixOf_label_ne _ _ 'R' 'U' ("ank:").data (("RL: ").data ++ v)
        rfl rfl (by decide)
    have c2 : pyStartsWith (String.mk (("URL: ").data ++ v)) "Score:" = false := by
      unfold pyStartsWith
      exact isPrefixOf_label_ne _ _ 'S' 'U' ("core:").data (("RL: ").data ++ v)
        rfl rfl (by decide)
    have c3 : pyStartsWith (String.mk (("URL: ").data ++ v)) "Title:" = false := by
      unfold pyStartsWith
      exact isPrefixOf_label_ne _ _ 'T' 'U' ("itle:").data (("RL: ").data ++ v)
        rfl rfl (by decide)
    have c4 : pyStartsWith (String.mk (("URL: ").data ++ v)) "Published:" = false := by
      unfold pyStartsWith
      exact isPrefixOf_label_ne _ _ 'P' 'U' ("ublished:").data (("RL: ").data ++ v)
        rfl rfl (by decide)
    have c5 : pyStartsWith (String.mk (("URL: ").data ++ v)) "View Count:" = false := by
      unfold pyStartsWith
      exact isPrefixOf_label_ne _ _ 'V' 'U' ("iew Count:").data (("RL: ").data ++ v)
        rfl rfl (by decide)
    have c6 : pyStartsWith (String.mk (("URL: ").data ++ v)) "URL:" = true := by
      unfold pyStartsWith
      exact isPrefixOf_label_self ("URL:").data (' ' :: v) _ rfl
    simp only [parseLine, hstrip, c1, c2, c3, c4, c5, c6, Bool.false_eq_true,
      if_false, if_true]
    rw [show String.mk (("URL: ").data ++ v) =
      String.mk (("URL").data ++ ':' :: ' ' :: v) from rfl]
    rw [extract1_label _ _ (by decide) hv]

theorem parseLine_published (st : ParsedRow) (v : List Char)
    (hv : stripList v = v) :
    parseLine st (String.mk (("Published: ").data ++ v)) =
      { st with date := String.mk v } := by
  by_cases hne : v = []
  · subst hne
    rfl
  · have hstrip := stripLine_label ("Published: ").data v 'P' ("ublished: ").data
      rfl (by decide) hv hne
    have c1 : pyStartsWith (String.mk (("Published: ").data ++ v)) "Rank:" = false := by
      unfold pyStartsWith
      exact isPrefixOf_label_ne _ _ 'R' 'P' ("ank:").data (("ublished: ").data ++ v)
        rfl rfl (by decide)
    have c2 : pyStartsWith (String.mk (("Published: ").data ++ v)) "Score:" = false := by
      unfold pyStartsWith
      exact isPrefixOf_label_ne _ _ 'S' 'P' ("core:").data (("ublished: ").data ++ v)
        rfl rfl (by decide)
    have c3 : pyStartsWith (String.mk (("Published: ").data ++ v)) "Title:" = false := by
      unfold pyStartsWith
      exact isPrefixOf_label_ne _ _ 'T' 'P' ("itle:").data (("ublished: ").data ++ v)
        rfl rfl (by decide)
    have c4 : pyStartsWith (String.mk (("Published: ").data ++ v)) "Published:" = true := by
      unfold pyStartsWith
      exact isPrefixOf_label_self ("Published:").data (' ' :: v) _ rfl
    simp only [parseLine, hstrip, c1, c2, c3, c4, Bool.false_eq_true, if_false,
      if_true]
    rw [show String.mk (("Published: ").data ++ v) =
      String.mk (("Published").data ++ ':' :: ' ' :: v) from rfl]
    rw [extract1_label _ _ (by decide) hv]

theorem parseLine_category (st : ParsedRow) (v : List Char)
    (hv : stripList v = v)
    (hvc : listContainsSub ("Transcript:").data v = false) :
    parseLine st (String.mk (("Category: ").data ++ v)) =
      { st with category := String.mk v } := by
  by_cases hne : v = []
  · subst hne
    rfl
  · have hstrip := stripLine_label ("Category: ").data v 'C' ("ategory: ").data
      rfl (by decide) hv hne
    have c1 : pyStartsWith (String.mk (("Category: ").data ++ v)) "Rank:" = false := by
      unfold pyStartsWith
      exact isPrefixOf_label_ne _ _ 'R' 'C' ("ank:").data (("ategory: ").data ++ v)
        rfl rfl (by decide)
    have c2 : pyStartsWith (String.mk (("Category: ").data ++ v)) "Score:" = false := by
      unfold pyStartsWith
      exact isPrefixOf_label_ne _ _ 'S' 'C' ("core:").data (("ategory: ").data ++ v)
        rfl rfl (by decide)
    have c3 : pyStartsWith (String.mk (("Category: ").data ++ v)) "Title:" = false := by
      unfold pyStartsWith
      exact isPrefixOf_label_ne _ _ 'T' 'C' ("itle:").data (("ategory: ").data ++ v)
        rfl rfl (by decide)
    have c4 : pyStartsWith (String.mk (("Category: ").data ++ v)) "Published:" = false := by
      unfold pyStartsWith
      exact isPrefixOf_label_ne _ _ 'P' 'C' ("ublished:").data (("ategory: ").data ++ v)
        rfl rfl (by decide)
    have c5 : pyStartsWith (String.mk (("Category: ").data ++ v)) "View Count:" = false := by
      unfold pyStartsWith
      exact isPrefixOf_label_ne _ _ 'V' 'C' ("iew Count:").data (("ategory: ").data ++ v)
        rfl rfl (by decide)
    have c6 : pyStartsWith (String.mk (("Category: ").data ++ v)) "URL:" = false := by
      unfold pyStartsWith
      exact isPrefixOf_label_ne _ _ 'U' 'C' ("RL:").data (("ategory: ").data ++ v)
        rfl rfl (by decide)
    have c7 : pyContains (String.mk (("Category: ").data ++ v)) "Transcript:" = false :=
      contains_transcript_label_false _ _ (by decide) hvc
    have c8 : pyStartsWith (String.mk (("Category: ").data ++ v)) "Category:" = true := by
      unfold pyStartsWith
      exact isPrefixOf_label_self ("Category:").data (' ' :: v) _ rfl
    simp only [parseLine, hstrip, c1, c2, c3, c4, c5, c6, c7, c8,
      Bool.false_eq_true, if_false, if_true]
    rw [show String.mk (("Category: ").data ++ v) =
      String.mk (("Category").data ++ ':' :: ' ' :: v) from rfl]
    rw [extract1_label _ _ (by decide) hv]

theorem parseLine_source (st : ParsedRow) (v : List Char)
    (hv : stripList v = v)
    (hvc : listContainsSub ("Transcript:").data v = false) :
    parseLine st (String.mk (("Source: ").data ++ v)) =
      { st with source := pyLower (String.mk v) } := by
  by_cases hne : v = []
  · subst hne
    rfl
  · have hstrip := stripLine_label ("Source: ").data v 'S' ("ource: ").data
      rfl (by decide) hv hne
    have c1 : pyStartsWith (String.mk (("Source: ").data ++ v)) "Rank:" = false := by
      unfold pyStartsWith
      exact isPrefixOf_label_ne _ _ 'R' 'S' ("ank:").data (("ource: ").data ++ v)
        rfl rfl (by decide)
    have c2 : pyStartsWith (String.mk (("Source: ").data ++ v)) "Score:" = false := by
      unfold pyStartsWith
      exact isPrefixOf_label_ne2 _ _ 'S' 'c' 'S' 'o' ("ore:").data
        (("urce: ").data ++ v) rfl rfl (by decide)
    have c3 : pyStartsWith (String.mk (("Source: ").data ++ v)) "Title:" = false := by
      unfold pyStartsWith
      exact isPrefixOf_label_ne _ _ 'T' 'S' ("itle:").data (("ource: ").data ++ v)
        rfl rfl (by decide)
    have c4 : pyStartsWith (String.mk (("Source: ").data ++ v)) "Published:" = false := by
      unfold pyStartsWith
      exact isPrefixOf_label_ne _ _ 'P' 'S' ("ublished:").data (("ource: ").data ++ v)
        rfl rfl (by decide)
    have c5 : pyStartsWith (String.mk (("Source: ").data ++ v)) "View Count:" = false := by
      unfold pyStartsWith
      exact isPrefixOf_label_ne _ _ 'V' 'S' ("iew Count:").data (("ource: ").data ++ v)
        rfl rfl (by decide)
    have c6 : pyStartsWith (String.mk (("Source: ").data ++ v)) "URL:" = false := by
      unfold pyStartsWith
      exact isPrefixOf_label_ne _ _ 'U' 'S' ("RL:").data (("ource: ").data ++ v)
        rfl rfl (by decide)
    have c7 : pyContains (String.mk (("Source: ").data ++ v)) "Transcript:" = false :=
      contains_transcript_label_false _ _ (by decide) hvc
    have c8 : pyStartsWith (String.mk (("Source: ").data ++ v)) "Category:" = false := by
      unfold pyStartsWith
      exact isPrefixOf_label_ne _ _ 'C' 'S' ("ategory:").data (("ource: ").data ++ v)
        rfl rfl (by decide)
    have c9 : pyStartsWith (String.mk (("Source: ").data ++ v)) "Source:" = true := by
      unfold pyStartsWith
      exact isPrefixOf_label_self ("Source:").data (' ' :: v) _ rfl
    simp only [parseLine, hstrip, c1, c2, c3, c4, c5, c6, c7, c8, c9,
      Bool.false_eq_true, if_false, if_true]
    rw [show String.mk (("Source: ").data ++ v) =
      String.mk (("Source").data ++ ':' :: ' ' :: v) from rfl]
    rw [extract1_label _ _ (by decide) hv]

theorem parseLine_score (st : ParsedRow) (v : List Char)
    (hv : stripList v = v) (hne : v ≠ []) (hcolon : ':' ∉ v)
    (hslash : '/' ∉ v) :
    parseLine st (String.mk (("Score: ").data ++ (v ++ ("/100").data))) =
      { st with score := String.mk v } := by
  have hvparts := stripList_parts hv
  have hw : stripList (v ++ ("/100").data) = v ++ ("/100").data := by
    rcases hvv : v with _ | ⟨c, t⟩
    · exact absurd hvv hne
    · have hc : isPySpace c = false := by
        have h1 := hvparts.1
        rw [hvv] at h1
        unfold stripL at h1
        by_contra hcc
        rw [Bool.not_eq_false] at hcc
        rw [List.dropWhile_cons_of_pos hcc] at h1
        have hlen := length_dropWhile_le isPySpace t
        have h2 := congrArg List.length h1
        simp at h2
        omega
      unfold stripList
      rw [List.cons_append, stripL_cons _ _ hc, ← List.cons_append, ← hvv]
      exact stripR_append _ _ (by decide) (by decide)
  have hstrip := stripLine_label ("Score: ").data (v ++ ("/100").data) 'S'
    ("core: ").data rfl (by decide) hw (by simp)
  have c1 : pyStartsWith (String.mk (("Score: ").data ++ (v ++ ("/100").data)))
      "Rank:" = false := by
    unfold pyStartsWith
    exact isPrefixOf_label_ne _ _ 'R' 'S' ("ank:").data
      (("core: ").data ++ (v ++ ("/100").data)) rfl rfl (by decide)
  have c2 : pyStartsWith (String.mk (("Score: ").data ++ (v ++ ("/100").data)))
      "Score:" = true := by
    unfold pyStartsWith
    exact isPrefixOf_label_self ("Score:").data (' ' :: (v ++ ("/100").data)) _ rfl
  simp only [parseLine, hstrip, c1, c2, Bool.false_eq_true, if_false, if_true]
  rw [show String.mk (("Score: ").data ++ (v ++ ("/100").data)) =
    String.mk (("Score").data ++ ':' :: (' ' :: (v ++ ("/100").data))) from rfl]
  have hwcolon : ':' ∉ (' ' :: (v ++ ("/100").data)) := by
    intro hc
    rcases List.mem_cons.mp hc with h | h
    · exact absurd h (by decide)
    · rcases List.mem_append.mp h with h | h
      · exact hcolon h
      · exact absurd h (by decide)
  rw [extractFull_label _ _ (by decide) hwcolon]
  have hstrip2 : pyStrip (String.mk (' ' :: (v ++ ("/100").data))) =
      String.mk (v ++ ("/100").data) := by
    unfold pyStrip stripList
    rw [show (String.mk (' ' :: (v ++ ("/100").data))).data =
      ' ' :: (v ++ ("/100").data) from rfl]
    rw [show stripL (' ' :: (v ++ ("/100").data)) = stripL (v ++ ("/100").data)
      from by
        unfold stripL
        rw [List.dropWhile_cons_of_pos (by decide)]]
    rw [(stripList_parts hw).1, (stripList_parts hw).2]
  rw [hstrip2]
  have hrep : pyReplace (String.mk (v ++ ("/100").data)) "/100" "" =
      String.mk v := by
    unfold pyReplace
    rw [show (String.mk (v ++ ("/100").data)).data = v ++ ("/100").data from rfl]
    rw [show ("" : String).data = ([] : List Char) from rfl]
    rw [listReplace_slash100 v hslash]
  rw [hrep]
  have hfinal : pyStrip (String.mk v) = String.mk v := by
    unfold pyStrip
    rw [show (String.mk v).data = v from rfl, hv]
  rw [hfinal]

theorem parseLine_views (st : ParsedRow) (n : Nat) :
    parseLine st (String.mk (("View Count: ").data ++ (pyCommaFmt n).data)) =
      { st with views := Nat.repr n } := by
  obtain ⟨hstripv, hcolonv, _, _⟩ := pyCommaFmt_data_benign n
  have hne := pyCommaFmt_ne_nil n
  have hstrip := stripLine_label ("View Count: ").data (pyCommaFmt n).data 'V'
    ("iew Count: ").data rfl (by decide) hstripv hne
  have c1 : pyStartsWith (String.mk (("View Count: ").data ++ (pyCommaFmt n).data))
      "Rank:" = false := by
    unfold pyStartsWith
    exact isPrefixOf_label_ne _ _ 'R' 'V' ("ank:").data
      (("iew Count: ").data ++ (pyCommaFmt n).data) rfl rfl (by decide)
  have c2 : pyStartsWith (String.mk (("View Count: ").data ++ (pyCommaFmt n).data))
      "Score:" = false := by
    unfold pyStartsWith
    exact isPrefixOf_label_ne _ _ 'S' 'V' ("core:").data
      (("iew Count: ").data ++ (pyCommaFmt n).data) rfl rfl (by decide)
  have c3 : pyStartsWith (String.mk (("View Count: ").data ++ (pyCommaFmt n).data))
      "Title:" = false := by
    unfold pyStartsWith
    exact isPrefixOf_label_ne _ _ 'T' 'V' ("itle:").data
      (("iew Count: ").data ++ (pyCommaFmt n).data) rfl rfl (by decide)
  have c4 : pyStartsWith (String.mk (("View Count: ").data ++ (pyCommaFmt n).data))
      "Published:" = false := by
    unfold pyStartsWith
    exact isPrefixOf_label_ne _ _ 'P' 'V' ("ublished:").data
      (("iew Count: ").data ++ (pyCommaFmt n).data) rfl rfl (by decide)
  have c5 : pyStartsWith (String.mk (("View Count: ").data ++ (pyCommaFmt n).data))
      "View Count:" = true := by
    unfold pyStartsWith
    exact isPrefixOf_label_self ("View Count:").data (' ' :: (pyCommaFmt n).data)
      _ rfl
  simp only [parseLine, hstrip, c1, c2, c3, c4, c5, Bool.false_eq_true,
    if_false, if_true]
  rw [show String.mk (("View Count: ").data ++ (pyCommaFmt n).data) =
    String.mk (("View Count").data ++ ':' :: (' ' :: (pyCommaFmt n).data)) from rfl]
  have hwcolon : ':' ∉ (' ' :: (pyCommaFmt n).data) := by
    intro hc
    rcases List.mem_cons.mp hc with h | h
    · exact absurd h (by decide)
    · exact hcolonv h
  rw [extractFull_label _ _ (by decide) hwcolon]
  have hstrip2 : pyStrip (String.mk (' ' :: (pyCommaFmt n).data)) =
      String.mk (pyCommaFmt n).data := by
    unfold pyStrip stripList
    rw [show (String.mk (' ' :: (pyCommaFmt n).data)).data =
      ' ' :: (pyCommaFmt n).data from rfl]
    rw [show stripL (' ' :: (pyCommaFmt n).data) = stripL (pyCommaFmt n).data
      from by
        unfold stripL
        rw [List.dropWhile_cons_of_pos (by decide)]]
    rw [(stripList_parts hstripv).1, (stripList_parts hstripv).2]
  rw [hstrip2]
  rw [show String.mk (pyCommaFmt n).data = pyCommaFmt n from rfl]
  rw [strip_commas_pyCommaFmt n]

theorem parseLine_duration (st : ParsedRow) (n : Nat) :
    parseLine st (String.mk (("Duration: ").data ++
      ((Nat.repr n).data ++ (" seconds").data))) = st := by
  obtain ⟨hstripr, _, _, hTr, _, _⟩ := repr_data_benign n
  have hw : stripList ((Nat.repr n).data ++ (" seconds").data) =
      (Nat.repr n).data ++ (" seconds").data := by
    rcases hr : (Nat.repr n).data with _ | ⟨c, t⟩
    · exact absurd hr (repr_data_ne_nil n)
    · have hc : isPySpace c = false :=
        (digitChars_benign c (repr_data_mem n c (by rw [hr]; simp))).1
      unfold stripList
      rw [List.cons_append, stripL_cons _ _ hc, ← List.cons_append]
      exact stripR_append _ _ (by decide) (by decide)
  have hstrip := stripLine_label ("Duration: ").data
    ((Nat.repr n).data ++ (" seconds").data) 'D' ("uration: ").data rfl
    (by decide) hw (by simp [repr_data_ne_nil n])
  have hvc : listContainsSub ("Transcript:").data
      ((Nat.repr n).data ++ (" seconds").data) = false := by
    rw [show ("Transcript:").data = 'T' :: ("ranscript:").data from rfl]
    apply listContainsSub_append_false
    · intro c hc h1
      exact absurd h1.symm
        ((digitChars_benign c (repr_data_mem n c hc)).2.2.2.2.2)
    · decide
  apply parseLine_of_inert
  unfold InertLine
  rw [hstrip]
  refine ⟨?_, ?_, ?_, ?_, ?_, ?_, ?_, ?_, ?_⟩
  · unfold pyStartsWith
    exact isPrefixOf_label_ne _ _ 'R' 'D' ("ank:").data _ rfl rfl (by decide)
  · unfold pyStartsWith
    exact isPrefixOf_label_ne _ _ 'S' 'D' ("core:").data _ rfl rfl (by decide)
  · unfold pyStartsWith
    exact isPrefixOf_label_ne _ _ 'T' 'D' ("itle:").data _ rfl rfl (by decide)
  · unfold pyStartsWith
    exact isPrefixOf_label_ne _ _ 'P' 'D' ("ublished:").data _ rfl rfl (by decide)
  · unfold pyStartsWith
    exact isPrefixOf_label_ne _ _ 'V' 'D' ("iew Count:").data _ rfl rfl (by decide)
  · unfold pyStartsWith
    exact isPrefixOf_label_ne _ _ 'U' 'D' ("RL:").data _ rfl rfl (by decide)
  · exact contains_transcript_label_false _ _ (by decide) hvc
  · unfold pyStartsWith
    exact isPrefixOf_label_ne _ _ 'C' 'D' ("ategory:").data _ rfl rfl (by decide)
  · unfold pyStartsWith
    exact isPrefixOf_label_ne _ _ 'S' 'D' ("ource:").data _ rfl rfl (by decide)

theorem take25_header_append (A R : List String) (h : A.length = 18) :
    (A ++ R).take 25 = A ++ R.take 7 := by
  rw [show (25 : Nat) = 18 + 7 from rfl, ← h, List.take_append]

theorem noTranscriptBody_take7 (url : String) :
    (splitCharAux '\n' (noTranscriptBody url).data []).take 7 =
      [("NO TRANSCRIPT AVAILABLE").data, [],
       ("This video does not have captions or subtitles available on YouTube.").data,
       ("To obtain the transcript, you would need to:").data,
       ("1. Use a speech-to-text service (e.g., OpenAI Whisper) on the downloaded audio").data,
       ("2. Manually transcribe the content").data, []] := by
  have hdata : (noTranscriptBody url).data =
      ("NO TRANSCRIPT AVAILABLE").data ++ '\n' ::
      (([] : List Char) ++ '\n' ::
      (("This video does not have captions or subtitles available on YouTube.").data ++ '\n' ::
      (("To obtain the transcript, you would need to:").data ++ '\n' ::
      (("1. Use a speech-to-text service (e.g., OpenAI Whisper) on the downloaded audio").data ++ '\n' ::
      (("2. Manually transcribe the content").data ++ '\n' ::
      (([] : List Char) ++ '\n' ::
      (("Video URL: ").data ++ (url.data ++ ('\n' :: ([] : List Char)))))))))) := rfl
  rw [hdata]
  rw [splitCharAux_append_sep '\n' ("NO TRANSCRIPT AVAILABLE").data _ _ (by decide)]
  rw [splitCharAux_append_sep '\n' ([] : List Char) _ _ (by decide)]
  rw [splitCharAux_append_sep '\n'
    ("This video does not have captions or subtitles available on YouTube.").data
    _ _ (by decide)]
  rw [splitCharAux_append_sep '\n'
    ("To obtain the transcript, you would need to:").data _ _ (by decide)]
  rw [splitCharAux_append_sep '\n'
    ("1. Use a speech-to-text service (e.g., OpenAI Whisper) on the downloaded audio").data
    _ _ (by decide)]
  rw [splitCharAux_append_sep '\n'
    ("2. Manually transcribe the content").data _ _ (by decide)]
  rw [splitCharAux_append_sep '\n' ([] : List Char) _ _ (by decide)]
  simp only [List.reverse_nil, List.nil_append]
  rfl

set_option maxHeartbeats 2000000

theorem parse_header_roundtrip (vd : VideoData) (tl : String)
    (rank score category source : String) (hasT : Bool)
    (hrank : rank = "S" ∨ rank = "A" ∨ rank = "B")
    (hscore : stripList score.data = score.data)
    (hscorene : score.data ≠ [])
    (hscorec : ':' ∉ score.data) (hscores : '/' ∉ score.data)
    (hscorenl : '\n' ∉ score.data)
    (htitle : stripList vd.title.data = vd.title.data)
    (htitlenl : '\n' ∉ vd.title.data)
    (hurl : stripList vd.url.data = vd.url.data)
    (hurlnl : '\n' ∉ vd.url.data)
    (hcat : stripList category.data = category.data)
    (hcatnl : '\n' ∉ category.data)
    (hcatc : listContainsSub ("Transcript:").data category.data = false)
    (hsrc : stripList source.data = source.data)
    (hsrcnl : '\n' ∉ source.data)
    (hsrcc : listContainsSub ("Transcript:").data source.data = false)
    (htl : ∀ line ∈ (List.map String.mk
      (splitCharAux '\n' tl.data [])).take 7, InertLine line) :
    parseMetaRows (metadataHeader vd score rank hasT category source ++ tl) =
      { rank := rank, score := score, title := vd.title,
        date := formatUploadDate vd.uploadDate,
        views := Nat.repr vd.viewCount, url := vd.url,
        transcript := if hasT then "有" else "无", category := category,
        source := pyLower (if source = "" then "youtube" else source) } := by
  have hn80 : ('\n' : Char) ∉ eq80.data := by decide
  have hn4 : ('\n' : Char) ∉ ("Title: ").data ++ vd.title.data := by
    intro h
    rcases List.mem_append.mp h with h | h
    · exact absurd h (by decide)
    · exact htitlenl h
  have hn5 : ('\n' : Char) ∉ ("URL: ").data ++ vd.url.data := by
    intro h
    rcases List.mem_append.mp h with h | h
    · exact absurd h (by decide)
    · exact hurlnl h
  have hn6 : ('\n' : Char) ∉ ("Published: ").data ++
      (formatUploadDate vd.uploadDate).data := by
    intro h
    rcases List.mem_append.mp h with h | h
    · exact absurd h (by decide)
    · exact (formatUploadDate_benign vd.uploadDate).2.2.1 h
  have hn7 : ('\n' : Char) ∉ ("View Count: ").data ++
      (pyCommaFmt vd.viewCount).data := by
    intro h
    rcases List.mem_append.mp h with h | h
    · exact absurd h (by decide)
    · exact (pyCommaFmt_data_benign vd.viewCount).2.2.1 h
  have hn8 : ('\n' : Char) ∉ ("Duration: ").data ++
      ((Nat.repr vd.duration).data ++ (" seconds").data) := by
    intro h
    rcases List.mem_append.mp h with h | h
    · exact absurd h (by decide)
    · rcases List.mem_append.mp h with h | h
      · exact (repr_data_benign vd.duration).2.2.1 h
      · exact absurd h (by decide)
  have hn9 : ('\n' : Char) ∉ ("Score: ").data ++
      (score.data ++ ("/100").data) := by
    intro h
    rcases List.mem_append.mp h with h | h
    · exact absurd h (by decide)
    · rcases List.mem_append.mp h with h | h
      · exact hscorenl h
      · exact absurd h (by decide)
  have hn10 : ('\n' : Char) ∉ ("Rank: ").data ++
      (rank.data ++ ((" (").data ++ ((rankDescription rank).data ++ (")").data))) := by
    rcases hrank with h | h | h <;> subst h <;> decide
  have hn11 : ('\n' : Char) ∉ ("Transcript: ").data ++
      (if hasT then ("Available" : String) else "NOT AVAILABLE").data := by
    cases hasT <;> decide
  have hn12 : ('\n' : Char) ∉ ("Category: ").data ++ category.data := by
    intro h
    rcases List.mem_append.mp h with h | h
    · exact absurd h (by decide)
    · exact hcatnl h
  have hn13 : ('\n' : Char) ∉ ("Source: ").data ++
      (if source = "" then ("youtube" : String) else source).data := by
    by_cases hs : source = ""
    · rw [if_pos hs]
      decide
    · rw [if_neg hs]
      intro h
      rcases List.mem_append.mp h with h | h
      · exact absurd h (by decide)
      · exact hsrcnl h
  have e01 : ("\nMETADATA\n").data = '\n' :: (("METADATA").data ++ ['\n']) := rfl
  have e02 : ("\nTitle: ").data = '\n' :: ("Title: ").data := rfl
  have e03 : ("\nURL: ").data = '\n' :: ("URL: ").data := rfl
  have e04 : ("\nPublished: ").data = '\n' :: ("Published: ").data := rfl
  have e05 : ("\nView Count: ").data = '\n' :: ("View Count: ").data := rfl
  have e06 : ("\nDuration: ").data = '\n' :: ("Duration: ").data := rfl
  have e07 : ("\nScore: ").data = '\n' :: ("Score: ").data := rfl
  have e08 : ("\nRank: ").data = '\n' :: ("Rank: ").data := rfl
  have e09 : ("\nTranscript: ").data = '\n' :: ("Transcript: ").data := rfl
  have e10 : ("\nCategory: ").data = '\n' :: ("Category: ").data := rfl
  have e11 : ("\nSource: ").data = '\n' :: ("Source: ").data := rfl
  have e12 : ("\n\n").data = '\n' :: ('\n' :: ([] : List Char)) := rfl
  have e13 : ("\nTRANSCRIPT\n").data = '\n' :: (("TRANSCRIPT").data ++ ['\n']) := rfl
  have hdata : (metadataHeader vd score rank hasT category source ++ tl).data =
      eq80.data ++ '\n' ::
      (("METADATA").data ++ '\n' ::
      (eq80.data ++ '\n' ::
      ((("Title: ").data ++ vd.title.data) ++ '\n' ::
      ((("URL: ").data ++ vd.url.data) ++ '\n' ::
      ((("Published: ").data ++ (formatUploadDate vd.uploadDate).data) ++ '\n' ::
      ((("View Count: ").data ++ (pyCommaFmt vd.viewCount).data) ++ '\n' ::
      ((("Duration: ").data ++ ((Nat.repr vd.duration).data ++ (" seconds").data)) ++ '\n' ::
      ((("Score: ").data ++ (score.data ++ ("/100").data)) ++ '\n' ::
      ((("Rank: ").data ++ (rank.data ++ ((" (").data ++
        ((rankDescription rank).data ++ (")").data)))) ++ '\n' ::
      ((("Transcript: ").data ++
        (if hasT then ("Available" : String) else "NOT AVAILABLE").data) ++ '\n' ::
      ((("Category: ").data ++ category.data) ++ '\n' ::
      ((("Source: ").data ++
        (if source = "" then ("youtube" : String) else source).data) ++ '\n' ::
      (([] : List Char) ++ '\n' ::
      (eq80.data ++ '\n' ::
      (("TRANSCRIPT").data ++ '\n' ::
      (eq80.data ++ '\n' ::
      (([] : List Char) ++ '\n' ::
      tl.data))))))))))))))))) := by
    simp only [metadataHeader, String.data_append, e01, e02, e03, e04, e05,
      e06, e07, e08, e09, e10, e11, e12, e13, List.cons_append,
      List.append_assoc, List.singleton_append, List.nil_append]
  have hsplit : splitCharAux '\n'
      (metadataHeader vd score rank hasT category source ++ tl).data [] =
      [eq80.data, ("METADATA").data, eq80.data,
       ("Title: ").data ++ vd.title.data,
       ("URL: ").data ++ vd.url.data,
       ("Published: ").data ++ (formatUploadDate vd.uploadDate).data,
       ("View Count: ").data ++ (pyCommaFmt vd.viewCount).data,
       ("Duration: ").data ++ ((Nat.repr vd.duration).data ++ (" seconds").data),
       ("Score: ").data ++ (score.data ++ ("/100").data),
       ("Rank: ").data ++ (rank.data ++ ((" (").data ++
         ((rankDescription rank).data ++ (")").data))),
       ("Transcript: ").data ++
         (if hasT then ("Available" : String) else "NOT AVAILABLE").data,
       ("Category: ").data ++ category.data,
       ("Source: ").data ++
         (if source = "" then ("youtube" : String) else source).data,
       [], eq80.data, ("TRANSCRIPT").data, eq80.data, []] ++
      splitCharAux '\n' tl.data [] := by
    rw [hdata]
    rw [splitCharAux_append_sep '\n' eq80.data _ _ hn80]
    rw [splitCharAux_append_sep '\n' ("METADATA").data _ _ (by decide)]
    rw [splitCharAux_append_sep '\n' eq80.data _ _ hn80]
    rw [splitCharAux_append_sep '\n' (("Title: ").data ++ vd.title.data) _ _ hn4]
    rw [splitCharAux_append_sep '\n' (("URL: ").data ++ vd.url.data) _ _ hn5]
    rw [splitCharAux_append_sep '\n'
      (("Published: ").data ++ (formatUploadDate vd.uploadDate).data) _ _ hn6]
    rw [splitCharAux_append_sep '\n'
      (("View Count: ").data ++ (pyCommaFmt vd.viewCount).data) _ _ hn7]
    rw [splitCharAux_append_sep '\n'
      (("Duration: ").data ++ ((Nat.repr vd.duration).data ++ (" seconds").data))
      _ _ hn8]
    rw [splitCharAux_append_sep '\n'
      (("Score: ").data ++ (score.data ++ ("/100").data)) _ _ hn9]
    rw [splitCharAux_append_sep '\n'
      (("Rank: ").data ++ (rank.data ++ ((" (").data ++
        ((rankDescription rank).data ++ (")").data)))) _ _ hn10]
    rw [splitCharAux_append_sep '\n'
      (("Transcript: ").data ++
        (if hasT then ("Available" : String) else "NOT AVAILABLE").data) _ _ hn11]
    rw [splitCharAux_append_sep '\n'
      (("Category: ").data ++ category.data) _ _ hn12]
    rw [splitCharAux_append_sep '\n'
      (("Source: ").data ++
        (if source = "" then ("youtube" : String) else source).data) _ _ hn13]
    rw [splitCharAux_append_sep '\n' ([] : List Char) _ _ (by decide)]
    rw [splitCharAux_append_sep '\n' eq80.data _ _ hn80]
    rw [splitCharAux_append_sep '\n' ("TRANSCRIPT").data _ _ (by decide)]
    rw [splitCharAux_append_sep '\n' eq80.data _ _ hn80]
    rw [splitCharAux_append_sep '\n' ([] : List Char) _ _ (by decide)]
    simp only [List.reverse_nil, List.nil_append, List.cons_append]
  have heq80line : ∀ st : ParsedRow,
      parseLine st (String.mk eq80.data) = st := fun st =>
    parseLine_of_inert st _ ⟨by decide, by decide, by decide, by decide,
      by decide, by decide, by decide, by decide, by decide⟩
  have hMETAline : ∀ st : ParsedRow,
      parseLine st (String.mk ("METADATA").data) = st := fun st =>
    parseLine_of_inert st _ ⟨by decide, by decide, by decide, by decide,
      by decide, by decide, by decide, by decide, by decide⟩
  have hTRANSline : ∀ st : ParsedRow,
      parseLine st (String.mk ("TRANSCRIPT").data) = st := fun st =>
    parseLine_of_inert st _ ⟨by decide, by decide, by decide, by decide,
      by decide, by decide, by decide, by decide, by decide⟩
  have hblank : ∀ st : ParsedRow,
      parseLine st (String.mk ([] : List Char)) = st := fun st =>
    parseLine_of_inert st _ ⟨by decide, by decide, by decide, by decide,
      by decide, by decide, by decide, by decide, by decide⟩
  have hrankline : ∀ st : ParsedRow,
      parseLine st (String.mk (("Rank: ").data ++ (rank.data ++ ((" (").data ++
        ((rankDescription rank).data ++ (")").data))))) =
      { st with rank := rank } := by
    rcases hrank with h | h | h <;> subst h <;> intro st <;> rfl
  have htrline : ∀ st : ParsedRow,
      parseLine st (String.mk (("Transcript: ").data ++
        (if hasT then ("Available" : String) else "NOT AVAILABLE").data)) =
      { st with transcript := if hasT then "有" else "无" } := by
    cases hasT <;> intro st <;> rfl
  have hsrcline : ∀ st : ParsedRow,
      parseLine st (String.mk (("Source: ").data ++
        (if source = "" then ("youtube" : String) else source).data)) =
      { st with source := pyLower (if source = "" then "youtube" else source) } := by
    intro st
    by_cases hs : source = ""
    · rw [if_pos hs]
      rfl
    · rw [if_neg hs]
      exact parseLine_source st source.data hsrc hsrcc
  have ht4 : parseLine parseRowInit
      (String.mk (("Title: ").data ++ vd.title.data)) =
      { rank := "Unknown", score := "0", title := vd.title, date := "Unknown",
        views := "0", url := "", transcript := "无", category := "",
        source := "youtube" } := by
    rw [parseLine_title _ _ htitle]
    rfl
  have ht5 : parseLine
      ({ rank := "Unknown", score := "0", title := vd.title, date := "Unknown",
         views := "0", url := "", transcript := "无", category := "",
         source := "youtube" } : ParsedRow)
      (String.mk (("URL: ").data ++ vd.url.data)) =
      { rank := "Unknown", score := "0", title := vd.title, date := "Unknown",
        views := "0", url := vd.url, transcript := "无", category := "",
        source := "youtube" } := by
    rw [parseLine_url _ _ hurl]
  have ht6 : parseLine
      ({ rank := "Unknown", score := "0", title := vd.title, date := "Unknown",
         views := "0", url := vd.url, transcript := "无", category := "",
         source := "youtube" } : ParsedRow)
      (String.mk (("Published: ").data ++ (formatUploadDate vd.uploadDate).data)) =
      { rank := "Unknown", score := "0", title := vd.title,
        date := formatUploadDate vd.uploadDate, views := "0", url := vd.url,
        transcript := "无", category := "", source := "youtube" } := by
    rw [parseLine_published _ _ (formatUploadDate_benign vd.uploadDate).1]
  have ht7 : parseLine
      ({ rank := "Unknown", score := "0", title := vd.title,
         date := formatUploadDate vd.uploadDate, views := "0", url := vd.url,
         transcript := "无", category := "", source := "youtube" } : ParsedRow)
      (String.mk (("View Count: ").data ++ (pyCommaFmt vd.viewCount).data)) =
      { rank := "Unknown", score := "0", title := vd.title,
        date := formatUploadDate vd.uploadDate, views := Nat.repr vd.viewCount,
        url := vd.url, transcript := "无", category := "",
        source := "youtube" } := by
    rw [parseLine_views _ vd.viewCount]
  have ht8 : parseLine
      ({ rank := "Unknown", score := "0", title := vd.title,
         date := formatUploadDate vd.uploadDate, views := Nat.repr vd.viewCount,
         url := vd.url, transcript := "无", category := "",
         source := "youtube" } : ParsedRow)
      (String.mk (("Duration: ").data ++
        ((Nat.repr vd.duration).data ++ (" seconds").data))) =
      { rank := "Unknown", score := "0", title := vd.title,
        date := formatUploadDate vd.uploadDate, views := Nat.repr vd.viewCount,
        url := vd.url, transcript := "无", category := "",
        source := "youtube" } :=
    parseLine_duration _ vd.duration
  have ht9 : parseLine
      ({ rank := "Unknown", score := "0", title := vd.title,
         date := formatUploadDate vd.uploadDate, views := Nat.repr vd.viewCount,
         url := vd.url, transcript := "无", category := "",
         source := "youtube" } : ParsedRow)
      (String.mk (("Score: ").data ++ (score.data ++ ("/100").data))) =
      { rank := "Unknown", score := score, title := vd.title,
        date := formatUploadDate vd.uploadDate, views := Nat.repr vd.viewCount,
        url := vd.url, transcript := "无", category := "",
        source := "youtube" } := by
    rw [parseLine_score _ _ hscore hscorene hscorec hscores]
  have ht10 : parseLine
      ({ rank := "Unknown", score := score, title := vd.title,
         date := formatUploadDate vd.uploadDate, views := Nat.repr vd.viewCount,
         url := vd.url, transcript := "无", category := "",
         source := "youtube" } : ParsedRow)
      (String.mk (("Rank: ").data ++ (rank.data ++ ((" (").data ++
        ((rankDescription rank).data ++ (")").data))))) =
      { rank := rank, score := score, title := vd.title,
        date := formatUploadDate vd.uploadDate, views := Nat.repr vd.viewCount,
        url := vd.url, transcript := "无", category := "",
        source := "youtube" } := by
    rw [hrankline]
  have ht11 : parseLine
      ({ rank := rank, score := score, title := vd.title,
         date := formatUploadDate vd.uploadDate, views := Nat.repr vd.viewCount,
         url := vd.url, transcript := "无", category := "",
         source := "youtube" } : ParsedRow)
      (String.mk (("Transcript: ").data ++
        (if hasT then ("Available" : String) else "NOT AVAILABLE").data)) =
      { rank := rank, score := score, title := vd.title,
        date := formatUploadDate vd.uploadDate, views := Nat.repr vd.viewCount,
        url := vd.url, transcript := if hasT then "有" else "无",
        category := "", source := "youtube" } := by
    rw [htrline]
  have ht12 : parseLine
      ({ rank := rank, score := score, title := vd.title,
         date := formatUploadDate vd.uploadDate, views := Nat.repr vd.viewCount,
         url := vd.url, transcript := if hasT then "有" else "无",
         category := "", source := "youtube" } : ParsedRow)
      (String.mk (("Category: ").data ++ category.data)) =
      { rank := rank, score := score, title := vd.title,
        date := formatUploadDate vd.uploadDate, views := Nat.repr vd.viewCount,
        url := vd.url, transcript := if hasT then "有" else "无",
        category := category, source := "youtube" } := by
    rw [parseLine_category _ _ hcat hcatc]
  have ht13 : parseLine
      ({ rank := rank, score := score, title := vd.title,
         date := formatUploadDate vd.uploadDate, views := Nat.repr vd.viewCount,
         url := vd.url, transcript := if hasT then "有" else "无",
         category := category, source := "youtube" } : ParsedRow)
      (String.mk (("Source: ").data ++
        (if source = "" then ("youtube" : String) else source).data)) =
      { rank := rank, score := score, title := vd.title,
        date := formatUploadDate vd.uploadDate, views := Nat.repr vd.viewCount,
        url := vd.url, transcript := if hasT then "有" else "无",
        category := category,
        source := pyLower (if source = "" then "youtube" else source) } := by
    rw [hsrcline]
  have ht14 : ∀ line ∈ [String.mk ([] : List Char), String.mk eq80.data,
      String.mk ("TRANSCRIPT").data, String.mk eq80.data,
      String.mk ([] : List Char)],
      parseLine
        ({ rank := rank, score := score, title := vd.title,
           date := formatUploadDate vd.uploadDate,
           views := Nat.repr vd.viewCount,
           url := vd.url, transcript := if hasT then "有" else "无",
           category := category,
           source := pyLower (if source = "" then "youtube" else source) } :
          ParsedRow) line =
        { rank := rank, score := score, title := vd.title,
          date := formatUploadDate vd.uploadDate,
          views := Nat.repr vd.viewCount,
          url := vd.url, transcript := if hasT then "有" else "无",
          category := category,
          source := pyLower (if source = "" then "youtube" else source) } := by
    intro line hline
    simp only [List.mem_cons, List.not_mem_nil, or_false] at hline
    rcases hline with h | h | h | h | h <;> rw [h]
    · exact hblank _
    · exact heq80line _
    · exact hTRANSline _
    · exact heq80line _
    · exact hblank _
  unfold parseMetaRows pySplitChar
  rw [hsplit, List.map_append, take25_header_append _ _ (by simp),
    List.foldl_append]
  simp only [List.map_cons, List.map_nil, List.foldl_cons, List.foldl_nil]
  rw [heq80line parseRowInit, hMETAline parseRowInit, heq80line parseRowInit]
  rw [ht4, ht5, ht6, ht7, ht8, ht9, ht10, ht11, ht12, ht13]
  rw [ht14 (String.mk ([] : List Char)) (by simp)]
  rw [ht14 (String.mk eq80.data) (by simp)]
  rw [ht14 (String.mk ("TRANSCRIPT").data) (by simp)]
  rw [ht14 (String.mk eq80.data) (by simp)]
  rw [ht14 (String.mk ([] : List Char)) (by simp)]
  rw [foldl_parseLine_inert _ _ htl]

/-- C9: parsing the artifact header back (as `_generate_master_index_csv` does)
recovers the values supplied at write time whenever they are well-formed
(a letter rank S/A/B, trim-invariant newline-free values, no `Transcript:`
marker inside category/source, a colon- and slash-free score, and transcript
body lines matching no metadata label) — with the source coming back
lowercased (and an empty source as the default `youtube`), so the exact
round-trip claimed for the source field fails for any source containing an
uppercase letter. -/
theorem parse_master_c9_roundtrip (vd : VideoData) (transcript : Option String)
    (rank score category source : String) (hasT : Bool)
    (hrank : rank = "S" ∨ rank = "A" ∨ rank = "B")
    (hscore : stripList score.data = score.data)
    (hscorene : score.data ≠ [])
    (hscorec : ':' ∉ score.data) (hscores : '/' ∉ score.data)
    (hscorenl : '\n' ∉ score.data)
    (htitle : stripList vd.title.data = vd.title.data)
    (htitlenl : '\n' ∉ vd.title.data)
    (hurl : stripList vd.url.data = vd.url.data)
    (hurlnl : '\n' ∉ vd.url.data)
    (hcat : stripList category.data = category.data)
    (hcatnl : '\n' ∉ category.data)
    (hcatc : listContainsSub ("Transcript:").data category.data = false)
    (hsrc : stripList source.data = source.data)
    (hsrcnl : '\n' ∉ source.data)
    (hsrcc : listContainsSub ("Transcript:").data source.data = false)
    (hbody : ∀ t, transcript = some t →
      ∀ line ∈ pySplitChar t '\n', InertLine line) :
    parseMetaRows (artifactContent vd transcript rank score hasT category source) =
      { rank := rank, score := score, title := vd.title,
        date := formatUploadDate vd.uploadDate,
        views := Nat.repr vd.viewCount, url := vd.url,
        transcript := if hasT then "有" else "无", category := category,
        source := pyLower (if source = "" then "youtube" else source) } := by
  unfold artifactContent
  apply parse_header_roundtrip vd _ rank score category source hasT hrank
    hscore hscorene hscorec hscores hscorenl htitle htitlenl hurl hurlnl
    hcat hcatnl hcatc hsrc hsrcnl hsrcc
  rcases transcript with _ | t
  · show ∀ line ∈ (List.map String.mk
      (splitCharAux '\n' (noTranscriptBody vd.url).data [])).take 7,
      InertLine line
    intro x hx
    rw [← List.map_take, noTranscriptBody_take7] at hx
    simp only [List.map_cons, List.map_nil, List.mem_cons, List.not_mem_nil,
      or_false] at hx
    rcases hx with h | h | h | h | h | h | h <;> subst h <;>
      exact ⟨rfl, rfl, rfl, rfl, rfl, rfl, rfl, rfl, rfl⟩
  · show ∀ line ∈ (List.map String.mk
      (splitCharAux '\n' t.data [])).take 7, InertLine line
    intro x hx
    exact hbody t rfl x (List.mem_of_mem_take hx)

/-- Witness for C9 at a concrete artifact: title `Launch Event`, score `87.5`,
rank `A`, a one-line transcript, category `Tech`, source `Whisper` (which
parses back as `whisper`). -/
theorem parse_master_c9_roundtrip_witness :
    parseMetaRows (artifactContent c9Video (some "hello world") "A" "87.5"
      true "Tech" "Whisper") =
      { rank := "A", score := "87.5", title := c9Video.title,
        date := formatUploadDate c9Video.uploadDate,
        views := Nat.repr c9Video.viewCount, url := c9Video.url,
        transcript := if true then "有" else "无", category := "Tech",
        source := pyLower (if ("Whisper" : String) = "" then "youtube"
          else "Whisper") } :=
  parse_master_c9_roundtrip c9Video (some "hello world") "A" "87.5" "Tech"
    "Whisper" true (Or.inr (Or.inl rfl)) (by decide) (by decide) (by decide)
    (by decide) (by decide) (by decide) (by decide) (by decide) (by decide)
    (by decide) (by decide) (by decide) (by decide) (by decide) (by decide)
    (by
      intro t ht line hl
      cases ht
      rw [show pySplitChar "hello world" '\n' = ["hello world"] from rfl] at hl
      simp only [List.mem_cons, List.not_mem_nil, or_false] at hl
      subst hl
      exact ⟨rfl, rfl, rfl, rfl, rfl, rfl, rfl, rfl, rfl⟩)

end VideoAnalysis
